import Mathlib

/-!
# tomviz: outline module and Python operator

A shallow embedding of `ModuleOutline.cxx` and `OperatorPython.cxx`.

The pipeline proxies, the grid-axes actor, the XML library, the JSON library and
the embedded interpreter are collaborators of these two classes.  Of each
collaborator the embedding keeps only the part of its state the two classes read
or write; answers that are computed outside these classes (text of a double,
result of a compilation, ...) are taken as parameters.
-/

namespace tomviz

/-! ## XML elements (the part of pugixml used by the two classes) -/

/-- An XML element: its name, its attributes in document order and its child elements. -/
inductive XmlNode where
  | mk (name : String) (attrs : List (String × String)) (children : List XmlNode)

namespace XmlNode

/-- The element name. -/
def name : XmlNode → String
  | mk n _ _ => n

/-- The attributes, in document order. -/
def attrs : XmlNode → List (String × String)
  | mk _ a _ => a

/-- The child elements, in document order. -/
def children : XmlNode → List XmlNode
  | mk _ _ c => c

/-- The call `xml_node::child(name)`: the first child element of that name, `none` for the null node. -/
def child (n : XmlNode) (nm : String) : Option XmlNode :=
  n.children.find? (fun c => c.name == nm)

/-- The call `xml_node::attribute(name)`: the value of the first attribute of that name,
`none` for the null attribute. -/
def attr (n : XmlNode) (nm : String) : Option String :=
  (n.attrs.find? (fun a => a.1 == nm)).map Prod.snd

/-- The call `xml_node::append_child`, with the finished child. -/
def append_child (n : XmlNode) (c : XmlNode) : XmlNode :=
  mk n.name n.attrs (n.children ++ [c])

/-- The call `xml_node::append_attribute(name) = value`. -/
def append_attribute (n : XmlNode) (k v : String) : XmlNode :=
  mk n.name (n.attrs ++ [(k, v)]) n.children

end XmlNode

/-- The text pugixml writes for a boolean attribute value. -/
def boolText (b : Bool) : String :=
  if b then "true" else "false"

/-- The call `xml_attribute::as_bool()`: true when the value starts with one of `1 t T y Y`. -/
def as_bool (s : String) : Bool :=
  match s.data with
  | [] => false
  | c :: _ => c == '1' || c == 't' || c == 'T' || c == 'y' || c == 'Y'

/-- Conversion between a `double` (carrier `D`) and attribute text, as done by the XML
library: `write` is `attribute = double`, `as_double` is `xml_attribute::as_double()`. -/
structure DoubleText (D : Type) where
  write : D → String
  as_double : String → D

/-! ## Outline module -/

/-- An RGB triple (`double rgb[3]`). -/
structure Color (D : Type) where
  r : D
  g : D
  b : D

/-- The state of an initialized `ModuleOutline` that its member functions read or write:
the `Visibility` and `DiffuseColor` properties of `m_outlineRepresentation`, the visibility,
generate-grid flag, diffuse colour and text colour of `m_gridAxes`, and `m_axesVisibility`. -/
structure ModuleOutline (D : Type) where
  repVisibility : Bool
  repDiffuseColor : Color D
  gridAxesVisibility : Bool
  gridAxesGenerateGrid : Bool
  gridAxesDiffuseColor : Color D
  gridAxesTextColor : Color D
  m_axesVisibility : Bool

/-- What the outline module takes from outside `ModuleOutline.cxx`: the text form of doubles,
the constant `offWhite` (Utilities.h), the in-class initial value of `m_axesVisibility`
(ModuleOutline.h) and the result of `Module::deserialize`. -/
structure OutlineHost (D : Type) where
  text : DoubleText D
  offWhite : Color D
  axesVisibilityDefault : Bool
  baseDeserialize : XmlNode → Bool

namespace ModuleOutline

variable {D : Type}

/-- The member `updateGridAxesColor`: the colour goes to the six title and label text properties,
to the actor property and to the representation. -/
def updateGridAxesColor (color : Color D) (m : ModuleOutline D) : ModuleOutline D :=
  { m with gridAxesTextColor := color, gridAxesDiffuseColor := color, repDiffuseColor := color }

/-- The member `initializeGridAxes`, on the modelled state: hidden, no grid. -/
def initializeGridAxes (m : ModuleOutline D) : ModuleOutline D :=
  { m with gridAxesVisibility := false, gridAxesGenerateGrid := false }

/-- The state after a successful `ModuleOutline::initialize`: `controller->Show` creates the
representation visible, then `initializeGridAxes` and `updateGridAxesColor(offWhite)` run. -/
def initialized (h : OutlineHost D) : ModuleOutline D :=
  updateGridAxesColor h.offWhite
    (initializeGridAxes
      { repVisibility := true
        repDiffuseColor := h.offWhite
        gridAxesVisibility := true
        gridAxesGenerateGrid := false
        gridAxesDiffuseColor := h.offWhite
        gridAxesTextColor := h.offWhite
        m_axesVisibility := h.axesVisibilityDefault })

/-- The member `ModuleOutline::initialize`: nothing is built when `Module::initialize` fails. -/
def initializeModule (h : OutlineHost D) (baseOk : Bool) : Option (ModuleOutline D) :=
  if baseOk then some (initialized h) else none

/-- The member `visibility()` of an initialized module. -/
def visibility (m : ModuleOutline D) : Bool :=
  m.repVisibility

/-- The member `setVisibility(val)` (its return value is always `true`). -/
def setVisibility (val : Bool) (m : ModuleOutline D) : ModuleOutline D :=
  let m1 := { m with repVisibility := val }
  if !val || m1.m_axesVisibility then { m1 with gridAxesVisibility := val } else m1

/-- The `color` element written by `serialize`. -/
def serializeColor (h : OutlineHost D) (m : ModuleOutline D) : XmlNode :=
  (((XmlNode.mk "color" [] []).append_attribute "r" (h.text.write m.gridAxesDiffuseColor.r)).append_attribute
    "g" (h.text.write m.gridAxesDiffuseColor.g)).append_attribute "b" (h.text.write m.gridAxesDiffuseColor.b)

/-- The `properties` element written by `serialize`. -/
def serializeProperties (h : OutlineHost D) (m : ModuleOutline D) : XmlNode :=
  let visibilityNode := (XmlNode.mk "visibility" [] []).append_attribute "enabled" (boolText m.visibility)
  let gridAxesNode :=
    (((XmlNode.mk "grid_axes" [] []).append_attribute "enabled" (boolText m.gridAxesVisibility)).append_attribute
      "grid" (boolText m.gridAxesGenerateGrid)).append_child (serializeColor h m)
  ((XmlNode.mk "properties" [] []).append_child visibilityNode).append_child gridAxesNode

/-- The member `serialize(ns)`: the element `ns` after the call (the return value is `true`). -/
def serialize (h : OutlineHost D) (m : ModuleOutline D) (ns : XmlNode) : XmlNode :=
  ns.append_child (serializeProperties h m)

/-- The `visibility` step of `deserialize`. -/
def deserializeVisibility (rootNode : XmlNode) (m : ModuleOutline D) : ModuleOutline D :=
  match rootNode.child "visibility" with
  | none => m
  | some node =>
    match node.attr "enabled" with
    | none => m
    | some att => setVisibility (as_bool att) m

/-- The `color` step of `deserialize`.  The local array `double rgb[3]` is not initialized in the
source; `rgb` is what it holds when the function is entered. -/
def deserializeColor (h : OutlineHost D) (rgb : Color D) (node : XmlNode) (m : ModuleOutline D) :
    ModuleOutline D :=
  match node.child "color" with
  | none => m
  | some color =>
    let rgb0 := match color.attr "r" with
      | some att => { rgb with r := h.text.as_double att }
      | none => rgb
    let rgb1 := match color.attr "g" with
      | some att => { rgb0 with g := h.text.as_double att }
      | none => rgb0
    let rgb2 := match color.attr "b" with
      | some att => { rgb1 with b := h.text.as_double att }
      | none => rgb1
    updateGridAxesColor rgb2 m

/-- The `grid_axes` step of `deserialize`. -/
def deserializeGridAxes (h : OutlineHost D) (rgb : Color D) (rootNode : XmlNode) (m : ModuleOutline D) :
    ModuleOutline D :=
  match rootNode.child "grid_axes" with
  | none => m
  | some node =>
    let m1 := match node.attr "enabled" with
      | some att => { m with gridAxesVisibility := as_bool att, m_axesVisibility := as_bool att }
      | none => m
    let m2 := match node.attr "grid" with
      | some att => { m1 with gridAxesGenerateGrid := as_bool att }
      | none => m1
    deserializeColor h rgb node m2

/-- The member `deserialize(ns)`: the return value and the state after the call. -/
def deserialize (h : OutlineHost D) (rgb : Color D) (ns : XmlNode) (m : ModuleOutline D) :
    Bool × ModuleOutline D :=
  match ns.child "properties" with
  | none => (false, m)
  | some rootNode =>
    (h.baseDeserialize ns, deserializeGridAxes h rgb rootNode (deserializeVisibility rootNode m))

end ModuleOutline

/-! ### The property panel -/

/-- The values of `Qt::CheckState`. -/
inductive CheckState where
  | Unchecked
  | PartiallyChecked
  | Checked
  deriving DecidableEq

/-- The two check boxes created by `addToPanel`. -/
structure Panel where
  showGridChecked : Bool
  showGridEnabled : Bool
  showAxesChecked : Bool

/-- An outline module together with its panel, once `addToPanel` has built one. -/
structure OutlineView (D : Type) where
  module : ModuleOutline D
  panel : Option Panel

namespace OutlineView

variable {D : Type}

/-- The member `addToPanel`: both boxes are set from the actor before their handlers are
connected, and `Show Grid` is disabled when `Show Axes` is not checked. -/
def addToPanel (v : OutlineView D) : OutlineView D :=
  let p : Panel :=
    { showGridChecked := v.module.gridAxesGenerateGrid
      showAxesChecked := v.module.gridAxesVisibility
      showGridEnabled := v.module.gridAxesVisibility }
  { v with panel := some p }

/-- The handler connected to `showGrid` on `stateChanged`. -/
def showGridStateChanged (state : CheckState) (v : OutlineView D) : OutlineView D :=
  { v with module := { v.module with gridAxesGenerateGrid := decide (state = CheckState.Checked) } }

/-- The call `showGrid->setChecked(b)`: the box emits `stateChanged` only when its state changes. -/
def showGridSetChecked (b : Bool) (v : OutlineView D) : OutlineView D :=
  match v.panel with
  | none => v
  | some p =>
    if p.showGridChecked = b then v
    else showGridStateChanged (if b then CheckState.Checked else CheckState.Unchecked)
      { v with panel := some { p with showGridChecked := b } }

/-- The call `showGrid->setEnabled(b)`. -/
def showGridSetEnabled (b : Bool) (v : OutlineView D) : OutlineView D :=
  { v with panel := v.panel.map (fun p => { p with showGridEnabled := b }) }

/-- The handler connected to `showAxes` on `stateChanged`. -/
def showAxesStateChanged (state : CheckState) (v : OutlineView D) : OutlineView D :=
  let v1 : OutlineView D :=
    { v with module := { v.module with gridAxesVisibility := decide (state = CheckState.Checked),
                                       m_axesVisibility := decide (state = CheckState.Checked) } }
  if state = CheckState.Unchecked then showGridSetEnabled false (showGridSetChecked false v1)
  else showGridSetEnabled true v1

/-- The `Show Axes` box changes to `b` (a click, or `setChecked`): nothing happens without a
panel or when the box already is in that state; otherwise its handler runs with the new state. -/
def showAxesSetChecked (b : Bool) (v : OutlineView D) : OutlineView D :=
  match v.panel with
  | none => v
  | some p =>
    if p.showAxesChecked = b then v
    else showAxesStateChanged (if b then CheckState.Checked else CheckState.Unchecked)
      { v with panel := some { p with showAxesChecked := b } }

/-- The handler connected to the colour button on `chosenColorChanged`. -/
def chosenColorChanged (c : Color D) (v : OutlineView D) : OutlineView D :=
  match v.panel with
  | none => v
  | some _ => { v with module := v.module.updateGridAxesColor c }

end OutlineView

/-- What can happen to an initialized outline module. -/
inductive OutlineAction (D : Type) where
  | setVisibility (val : Bool)
  | deserialize (rgb : Color D) (ns : XmlNode)
  | addToPanel
  | showAxes (checked : Bool)
  | showGrid (checked : Bool)
  | chooseColor (c : Color D)

/-- One action on an outline module and its panel. -/
def outlineStep {D : Type} (h : OutlineHost D) (v : OutlineView D) : OutlineAction D → OutlineView D
  | .setVisibility val => { v with module := v.module.setVisibility val }
  | .deserialize rgb ns => { v with module := (v.module.deserialize h rgb ns).2 }
  | .addToPanel => v.addToPanel
  | .showAxes checked => v.showAxesSetChecked checked
  | .showGrid checked => v.showGridSetChecked checked
  | .chooseColor c => v.chosenColorChanged c

/-- The state reached from `initialize` by a sequence of actions. -/
def outlineRun {D : Type} (h : OutlineHost D) (acts : List (OutlineAction D)) : OutlineView D :=
  acts.foldl (outlineStep h) { module := ModuleOutline.initialized h, panel := none }

/-! ### Sample data for the outline module -/

/-- A sample text form of doubles: the carrier is `Nat`, written in unary. -/
def unaryText : DoubleText Nat where
  write := fun n => String.mk (List.replicate n '1')
  as_double := fun s => s.length

/-- A sample host: black as `offWhite`, axes flag initially off, base `deserialize` succeeding. -/
def sampleHost : OutlineHost Nat where
  text := unaryText
  offWhite := { r := 0, g := 0, b := 0 }
  axesVisibilityDefault := false
  baseDeserialize := fun _ => true

/-- An empty element to serialize into. -/
def emptyModuleNode : XmlNode :=
  XmlNode.mk "Module" [] []

/-- A hand-written state file: module hidden, axes enabled. -/
def hiddenWithAxesXml : XmlNode :=
  XmlNode.mk "Module" []
    [XmlNode.mk "properties" []
      [XmlNode.mk "visibility" [("enabled", "false")] [],
       XmlNode.mk "grid_axes" [("enabled", "true")] []]]

/-- A hand-written state file that only hides the module. -/
def hideOnlyXml : XmlNode :=
  XmlNode.mk "Module" []
    [XmlNode.mk "properties" [] [XmlNode.mk "visibility" [("enabled", "false")] []]]

/-- The `enabled` attribute of `properties/visibility`, when the input has it. -/
def visibilityEnabledAttr (ns : XmlNode) : Option String :=
  ((ns.child "properties").bind (fun p => p.child "visibility")).bind (fun n => n.attr "enabled")

/-- The `grid_axes` element of `properties`, when the input has it. -/
def gridAxesNode (ns : XmlNode) : Option XmlNode :=
  (ns.child "properties").bind (fun p => p.child "grid_axes")

/-- The `enabled` attribute of `properties/grid_axes`, when the input has it. -/
def gridAxesEnabledAttr (ns : XmlNode) : Option String :=
  (gridAxesNode ns).bind (fun n => n.attr "enabled")

/-- The `grid` attribute of `properties/grid_axes`, when the input has it. -/
def gridAxesGridAttr (ns : XmlNode) : Option String :=
  (gridAxesNode ns).bind (fun n => n.attr "grid")

/-- The `color` element of `properties/grid_axes`, when the input has it. -/
def gridAxesColorNode (ns : XmlNode) : Option XmlNode :=
  (gridAxesNode ns).bind (fun n => n.child "color")

/-- The decoration is visible only when the axes flag is set. -/
def AxesInv {D : Type} (m : ModuleOutline D) : Prop :=
  m.gridAxesVisibility = true → m.m_axesVisibility = true

/-- A hidden module whose axes the user enabled before hiding it. -/
def hiddenAxesOnModule : ModuleOutline Nat :=
  (outlineRun sampleHost
    [OutlineAction.addToPanel, OutlineAction.showAxes true, OutlineAction.setVisibility false]).module

/-- A visible module showing its axes. -/
def axesShownModule : ModuleOutline Nat :=
  (outlineRun sampleHost [OutlineAction.addToPanel, OutlineAction.showAxes true]).module

/-- A hand-written state file with an empty `properties` element. -/
def emptyPropertiesXml : XmlNode :=
  XmlNode.mk "Module" [] [XmlNode.mk "properties" [] []]

/-- A hand-written state file whose `color` element has no `r`. -/
def colorWithoutRedXml : XmlNode :=
  XmlNode.mk "Module" []
    [XmlNode.mk "properties" []
      [XmlNode.mk "grid_axes" [] [XmlNode.mk "color" [("g", "11"), ("b", "111")] []]]]

/-! ## Python operator -/

/-- The call `QString::toLatin1()`: a character outside Latin-1 becomes `?`. -/
def toLatin1 (s : String) : String :=
  String.mk (s.data.map fun c => if c.toNat < 256 then c else '?')

/-- A parsed JSON value (`Json::Value`); every numeric kind is `number`. -/
inductive JsonValue where
  | null
  | bool (b : Bool)
  | number (n : Int)
  | string (s : String)
  | array (items : List JsonValue)
  | object (members : List (String × JsonValue))

namespace JsonValue

/-- The call `isNull()`. -/
def isNull : JsonValue → Bool
  | null => true
  | _ => false

/-- The call `value[key]` with a string key: defined on an object and on null, where a missing
member reads as null; on any other value the library raises a logic error (`none`). -/
def member (v : JsonValue) (key : String) : Option JsonValue :=
  match v with
  | null => some null
  | object ms => some ((ms.lookup key).getD null)
  | _ => none

/-- The call `size()`: the number of items of an array or of members of an object, 0 otherwise. -/
def size : JsonValue → Nat
  | array xs => xs.length
  | object ms => ms.length
  | _ => 0

/-- The call `value[i]` with an array index: defined on an array and on null, where a missing
item reads as null; on any other value the library raises a logic error (`none`). -/
def index (v : JsonValue) (i : Nat) : Option JsonValue :=
  match v with
  | null => some null
  | array xs => some (xs.getD i null)
  | _ => none

/-- The call `asCString()`: defined on a string; on any other value the library raises a logic
error (`none`). -/
def asCString : JsonValue → Option String
  | string s => some s
  | _ => none

end JsonValue

/-- A value found in the mapping returned by the script: a wrapped `vtkDataObject` (handle `d`),
or any other object, for which `vtkPythonUtil::GetPointerFromObject` gives no data object;
`raises` tells whether that conversion leaves an interpreter exception set (it does not for
`None`). -/
inductive PyValue where
  | dataObject (d : Nat)
  | other (raises : Bool)

/-- What a successful call of the entry point returns: a dictionary (keys in lookup order), or
an object that is not a dictionary. -/
inductive PyResult where
  | dict (items : List (String × PyValue))
  | notDict

/-- Calls the operator makes on its collaborators, signals it emits and lines it logs. -/
inductive Event where
  | labelModified
  | transformModified
  | qCritical (msg : String)
  | qWarning (msg : String)
  | checkForError
  | compileString (script file : String)
  | execCodeModule (name : String) (code : Nat)
  | getAttrString (pymodule : Nat) (attr : String)
  | call (callable : Nat) (data : Nat)
  | setNumberOfResults (n : Nat)
  | resultSetName (i : Nat) (name : String)
  | resultSetLabel (i : Nat) (label : String)
  | setHasChildDataSource (b : Bool)
  | setResult (name : String) (data : Nat)
  | setChildDataSource (data : Nat)
  deriving DecidableEq

/-- What the operator takes from outside `OperatorPython.cxx`: the answers of the embedded
interpreter (`PyImport_ImportModule("tomviz.utils")`, `Py_CompileString`,
`PyImport_ExecCodeModule`, `PyObject_GetAttrString`, `PyObject_Call`; `none` is a null result),
of `Json::Reader::parse`, of `Operator::setResult`, and whether a `TrivialProducer` can be had
for a child data object.  Python objects and data objects are handles.

`PyImport_ExecCodeModule` executes the code in the module of the given name, which it re-uses
when the interpreter already has it: `execCodeModule prior name code` is the content of the
module after the execution, `prior` being its content before (`none` when the interpreter has no
module of that name), and `getAttrString` reads an attribute of a module content.

`readName` is what the program reads through the pointer `name` of `applyTransform`, which
points into the destroyed temporary `toStdString()` (lines 266 and 290): the declared name where
the bytes are still in place, anything else otherwise. -/
structure OperatorHost where
  importUtils : Option Nat
  compileString : String → String → Option Nat
  execCodeModule : Option Nat → String → Nat → Option Nat
  getAttrString : Nat → String → Option Nat
  call : Nat → Nat → Option PyResult
  jsonParse : String → Option JsonValue
  setResult : String → Nat → Bool
  trivialProducer : Nat → Bool
  readName : String → String

/-- The module table of the interpreter (`sys.modules`): module name and module content. -/
abbrev ModuleTable := List (String × Nat)

/-- The module table without the module `name`. -/
def ModuleTable.remove (modules : ModuleTable) (name : String) : ModuleTable :=
  modules.filter fun m => m.1 != name

/-- The module table in which the module `name` has the content `content`. -/
def ModuleTable.set (modules : ModuleTable) (name : String) (content : Nat) : ModuleTable :=
  (name, content) :: modules.remove name

/-- The state of an `OperatorPython`: its members, the three interpreter objects of
`OPInternals` (`none` is a null pointer), the events so far, oldest first, and the module table
of the interpreter the operator lives in, which `setScript` reads and writes. -/
structure OperatorPython where
  Label : String
  Script : String
  jsonDescription : String
  OperatorModule : Option Nat
  Code : Option Nat
  TransformMethod : Option Nat
  m_resultNames : List String
  m_childDataSourceNames : List String
  events : List Event
  modules : ModuleTable

namespace OperatorPython

/-- Record an event. -/
def emit (op : OperatorPython) (e : Event) : OperatorPython :=
  { op with events := op.events ++ [e] }

/-- The constructor, in an interpreter whose module table is `modules`. -/
def newIn (h : OperatorHost) (modules : ModuleTable) : OperatorPython :=
  let op : OperatorPython :=
    { Label := "Python Operator"
      Script := ""
      jsonDescription := ""
      OperatorModule := h.importUtils
      Code := none
      TransformMethod := none
      m_resultNames := []
      m_childDataSourceNames := []
      events := []
      modules := modules }
  match h.importUtils with
  | some _ => op
  | none => (op.emit (Event.qCritical "Failed to import tomviz.utils module.")).emit Event.checkForError

/-- The constructor, in an interpreter that has executed no script yet. -/
def new (h : OperatorHost) : OperatorPython :=
  newIn h []

/-- The member `setLabel`. -/
def setLabel (txt : String) (op : OperatorPython) : OperatorPython :=
  { op with Label := txt }.emit Event.labelModified

/-- The member `setScript`.  The module `tomviz_<label>` is looked up in the module table
before the code is executed in it; a failed execution removes it from the table. -/
def setScript (h : OperatorHost) (str : String) (op : OperatorPython) : OperatorPython :=
  if op.Script ≠ str then
    let op1 := { op with Script := str, Code := none, TransformMethod := none }
    let op2 := op1.emit (Event.compileString (toLatin1 op1.Script) (toLatin1 op1.Label))
    match h.compileString (toLatin1 op1.Script) (toLatin1 op1.Label) with
    | none =>
      (op2.emit Event.checkForError).emit
        (Event.qCritical "Invalid script. Please check the traceback message for details")
    | some code =>
      let op3 := { op2 with Code := some code }
      let op4 := op3.emit (Event.execCodeModule (toLatin1 ("tomviz_" ++ op3.Label)) code)
      match h.execCodeModule (op4.modules.lookup (toLatin1 ("tomviz_" ++ op3.Label)))
          (toLatin1 ("tomviz_" ++ op3.Label)) code with
      | none =>
        ({ op4 with modules := op4.modules.remove (toLatin1 ("tomviz_" ++ op3.Label)) }.emit
          Event.checkForError).emit (Event.qCritical "Failed to create module.")
      | some pymodule =>
        let op5 :=
          { op4 with modules := op4.modules.set (toLatin1 ("tomviz_" ++ op3.Label)) pymodule }.emit
            (Event.getAttrString pymodule "transform_scalars")
        match h.getAttrString pymodule "transform_scalars" with
        | none =>
          (op5.emit Event.checkForError).emit
            (Event.qWarning "Script doesn't have any 'transform_scalars' function.")
        | some f =>
          ({ op5 with TransformMethod := some f }.emit Event.checkForError).emit
            Event.transformModified
  else op

/-- The block `if (!nameValue.isNull()) { oa->setName(..); m_resultNames.append(..); }` for
result `i`; `none` when `asCString` raises. -/
def resultNameStep (i : Nat) (nameValue : JsonValue) (op : OperatorPython) : Option OperatorPython :=
  if !nameValue.isNull then
    nameValue.asCString.map fun s =>
      { op.emit (Event.resultSetName i s) with m_resultNames := op.m_resultNames ++ [s] }
  else some op

/-- The block `if (!labelValue.isNull()) { oa->setLabel(..); }` for result `i`. -/
def resultLabelStep (i : Nat) (labelValue : JsonValue) (op : OperatorPython) : Option OperatorPython :=
  if !labelValue.isNull then
    labelValue.asCString.map fun s => op.emit (Event.resultSetLabel i s)
  else some op

/-- The loop over `results` in `setJSONDescription`, at index `i` with `k` entries to go;
`none` when the JSON library raises. -/
def resultsLoop (resultsNode : JsonValue) : Nat → Nat → OperatorPython → Option OperatorPython
  | 0, _, op => some op
  | k + 1, i, op =>
    (resultsNode.index i).bind fun entry =>
    (entry.member "name").bind fun nameValue =>
    (resultNameStep i nameValue op).bind fun op1 =>
    (entry.member "label").bind fun labelValue =>
    (resultLabelStep i labelValue op1).bind fun op2 =>
    resultsLoop resultsNode k (i + 1) op2

/-- The block `if (!nameValue.isNull()) { m_childDataSourceNames.append(..); }`. -/
def childNameStep (nameValue : JsonValue) (op : OperatorPython) : Option OperatorPython :=
  if !nameValue.isNull then
    nameValue.asCString.map fun s =>
      { op with m_childDataSourceNames := op.m_childDataSourceNames ++ [s] }
  else some op

/-- The warning logged when `children` does not have exactly one entry. -/
def childCountStep (size : Nat) (op : OperatorPython) : OperatorPython :=
  if size ≠ 1 then
    op.emit (Event.qCritical ("Only one child dataset is supported for now. Found " ++
      toString size ++ " but only the first will be used"))
  else op

/-- The `children` part of `setJSONDescription`; `none` when the JSON library raises. -/
def childrenStep (childDatasetNode : JsonValue) (op : OperatorPython) : Option OperatorPython :=
  if !childDatasetNode.isNull then
    if childDatasetNode.size > 0 then
      (childDatasetNode.index 0).bind fun first =>
      (first.member "name").bind fun nameValue =>
      childNameStep nameValue
        ((childCountStep childDatasetNode.size op).emit (Event.setHasChildDataSource true))
    else some (childCountStep childDatasetNode.size op)
  else some op

/-- The block `if (!labelNode.isNull()) { setLabel(..); }`. -/
def labelStep (labelNode : JsonValue) (op : OperatorPython) : Option OperatorPython :=
  if !labelNode.isNull then labelNode.asCString.map fun s => op.setLabel s
  else some op

/-- The `results` part of `setJSONDescription`. -/
def resultsStep (resultsNode : JsonValue) (op : OperatorPython) : Option OperatorPython :=
  if !resultsNode.isNull then
    resultsLoop resultsNode resultsNode.size 0 (op.emit (Event.setNumberOfResults resultsNode.size))
  else some op

/-- The member `setJSONDescription`; `none` when the JSON library raises a logic error on a
value of the wrong kind. -/
def setJSONDescription (h : OperatorHost) (str : String) (op : OperatorPython) :
    Option OperatorPython :=
  if op.jsonDescription = str then some op
  else
    match h.jsonParse str with
    | none =>
      some ((op.emit (Event.qCritical "Failed to parse operator JSON")).emit (Event.qCritical str))
    | some root =>
      (root.member "label").bind fun labelNode =>
      (labelStep labelNode op).bind fun op1 =>
      (root.member "results").bind fun resultsNode =>
      (resultsStep resultsNode
        { op1 with m_resultNames := [], m_childDataSourceNames := [] }).bind fun op3 =>
      (root.member "children").bind fun childDatasetNode =>
      childrenStep childDatasetNode op3

/-- The member `JSONDescription()`. -/
def JSONDescription (op : OperatorPython) : String :=
  op.jsonDescription

/-- The loop over `m_resultNames` in `applyTransform`; the flag tells whether an interpreter
exception is set.  The dictionary lookup, `setResult` and two of the log lines use the pointer
`name`, hence `h.readName` of the declared name; the line for a missing result prints the
declared name itself. -/
def harvestResults (h : OperatorHost) (outputDict : List (String × PyValue)) :
    List String → OperatorPython × Bool → OperatorPython × Bool
  | [], st => st
  | name :: rest, (op, err) =>
    match outputDict.lookup (h.readName name) with
    | none =>
      harvestResults h outputDict rest
        (op.emit (Event.qCritical ("No result named " ++ name ++ " defined in output dictionary.")),
          err)
    | some (PyValue.dataObject d) =>
      if h.setResult (h.readName name) d then
        harvestResults h outputDict rest (op.emit (Event.setResult (h.readName name) d), err)
      else
        harvestResults h outputDict rest
          ((op.emit (Event.setResult (h.readName name) d)).emit
            (Event.qCritical ("Could not set result '" ++ h.readName name ++ "'")), err)
    | some (PyValue.other raises) =>
      harvestResults h outputDict rest
        (op.emit (Event.qCritical
          ("Result named '" ++ h.readName name ++ "' is not a vtkDataObject")),
          err || raises)

/-- How the loop over `m_childDataSourceNames` ends: it runs to its end, or it leaves
`applyTransform` with `return false` because no `TrivialProducer` could be had. -/
inductive ChildHarvest where
  | finished (op : OperatorPython) (err : Bool)
  | noProducer (op : OperatorPython)

/-- The loop over `m_childDataSourceNames` in `applyTransform`.  The dictionary lookup uses the
pointer `name`, hence `h.readName` of the declared name. -/
def harvestChildren (h : OperatorHost) (outputDict : List (String × PyValue)) :
    List String → OperatorPython × Bool → ChildHarvest
  | [], (op, err) => ChildHarvest.finished op err
  | name :: rest, (op, err) =>
    match outputDict.lookup (h.readName name) with
    | none =>
      harvestChildren h outputDict rest
        (op.emit (Event.qCritical
          ("No child data source named " ++ name ++ " defined in output dictionary")), err)
    | some (PyValue.dataObject d) =>
      if h.trivialProducer d then
        harvestChildren h outputDict rest (op.emit (Event.setChildDataSource d), err)
      else
        ChildHarvest.noProducer (op.emit (Event.qWarning "Could not get TrivialProducer from proxy"))
    | some (PyValue.other raises) => harvestChildren h outputDict rest (op, err || raises)

/-- The part of `applyTransform` that looks for additional outputs in the returned dictionary,
up to the return statement. -/
def harvest (h : OperatorHost) (outputDict : List (String × PyValue)) (op : OperatorPython) :
    Bool × OperatorPython :=
  match harvestChildren h outputDict op.m_childDataSourceNames
      (harvestResults h outputDict op.m_resultNames (op, false)) with
  | ChildHarvest.noProducer op2 => (false, op2)
  | ChildHarvest.finished op2 err => (!err, op2.emit Event.checkForError)

/-- The part of `applyTransform` from the call of the entry point `f` on. -/
def invoke (h : OperatorHost) (data f : Nat) (op : OperatorPython) : Bool × OperatorPython :=
  match h.call f data with
  | none =>
    (false,
      ((op.emit (Event.call f data)).emit (Event.qCritical "Failed to execute the script.")).emit
        Event.checkForError)
  | some PyResult.notDict => (true, (op.emit (Event.call f data)).emit Event.checkForError)
  | some (PyResult.dict outputDict) => harvest h outputDict (op.emit (Event.call f data))

/-- The member `applyTransform(data)`: the return value and the state after the call. -/
def applyTransform (h : OperatorHost) (data : Nat) (op : OperatorPython) : Bool × OperatorPython :=
  if op.Script = "" then (true, op)
  else
    match op.OperatorModule, op.TransformMethod with
    | some _, some f => invoke h data f op
    | _, _ => (true, op)

end OperatorPython

/-- What can be done to a Python operator (`deserialize` is `setLabel` followed by `setScript`). -/
inductive OperatorAction where
  | setLabel (txt : String)
  | setScript (str : String)
  | setJSONDescription (str : String)
  | applyTransform (data : Nat)

/-- One action on an operator; `none` when the JSON library raises. -/
def operatorStep (h : OperatorHost) (op : OperatorPython) : OperatorAction → Option OperatorPython
  | .setLabel txt => some (op.setLabel txt)
  | .setScript str => some (op.setScript h str)
  | .setJSONDescription str => op.setJSONDescription h str
  | .applyTransform data => some (op.applyTransform h data).2

/-- The state reached from a freshly constructed operator by a sequence of actions. -/
def operatorRun (h : OperatorHost) : List OperatorAction → OperatorPython → Option OperatorPython
  | [], op => some op
  | a :: rest, op => (operatorStep h op a).bind (operatorRun h rest)

/-! ### Notions used to state the operator properties -/

/-- What the three interpreter calls of `setScript` give when the module table is `modules`:
compile `script` (file name: the label), execute the code in module `tomviz_<label>` with the
content the table has for it, and look up `transform_scalars` in the module afterwards: the
callable, when all three steps succeed. -/
def transformLookup (h : OperatorHost) (modules : ModuleTable) (label script : String) :
    Option Nat :=
  (h.compileString (toLatin1 script) (toLatin1 label)).bind fun code =>
    (h.execCodeModule (modules.lookup (toLatin1 ("tomviz_" ++ label)))
        (toLatin1 ("tomviz_" ++ label)) code).bind fun pymodule =>
      h.getAttrString pymodule "transform_scalars"

/-- The operator can run its script: the script is not empty, `tomviz.utils` was imported and a
callable is held. -/
def Runnable (op : OperatorPython) : Prop :=
  op.Script ≠ "" ∧ op.OperatorModule ≠ none ∧ op.TransformMethod ≠ none

/-- A sample host: only the script `good` compiles (to code 1, module content 2, callable 3);
the callable returns the mapping `a ↦ data object 10`; only `desc`, `plain` and `results` parse
as JSON; declared names are read back as they are. -/
def sampleOperatorHost : OperatorHost where
  importUtils := some 0
  compileString := fun script _ => if script = "good" then some 1 else none
  execCodeModule := fun _ _ code => if code = 1 then some 2 else none
  getAttrString := fun pymodule attr =>
    if pymodule = 2 ∧ attr = "transform_scalars" then some 3 else none
  call := fun f _ => if f = 3 then some (PyResult.dict [("a", PyValue.dataObject 10)]) else none
  jsonParse := fun str =>
    if str = "desc" then
      some (JsonValue.object
        [("label", JsonValue.string "Sample"),
         ("results", JsonValue.array
            [JsonValue.object [("name", JsonValue.string "a"), ("label", JsonValue.string "A")],
             JsonValue.object [("name", JsonValue.string "b")]]),
         ("children", JsonValue.array [JsonValue.object [("name", JsonValue.string "c")]])])
    else if str = "plain" then some (JsonValue.object [("label", JsonValue.string "Plain")])
    else if str = "results" then
      some (JsonValue.object
        [("results", JsonValue.array
            [JsonValue.object [("name", JsonValue.string "a")],
             JsonValue.object [("name", JsonValue.string "b")]])])
    else none
  setResult := fun _ _ => true
  trivialProducer := fun _ => true
  readName := fun name => name

/-- The sample host with an interpreter that re-uses modules as CPython does.  Two scripts
compile: `def transform_scalars(d): pass` (code 1) and `x = 1` (code 2).  A module content is 0
when `transform_scalars` is not bound in the module and 7 when it is bound to the function of
code 1: executing code 1 binds it, executing code 2 leaves the content of the module as it
was. -/
def reuseHost : OperatorHost :=
  { sampleOperatorHost with
    compileString := fun script _ =>
      if script = "def transform_scalars(d): pass" then some 1
      else if script = "x = 1" then some 2
      else none
    execCodeModule := fun prior _ code =>
      if code = 1 then some 7
      else if code = 2 then some (prior.getD 0)
      else none
    getAttrString := fun content attr =>
      if attr = "transform_scalars" ∧ content ≠ 0 then some content else none }

/-- Two operator states hold the same script and the same callable. -/
def SameScript (a b : OperatorPython) : Prop :=
  a.Script = b.Script ∧ a.TransformMethod = b.TransformMethod ∧
  a.OperatorModule = b.OperatorModule

/-- The event is a call of `setResult`. -/
def Event.isSetResult : Event → Bool
  | Event.setResult _ _ => true
  | _ => false

/-- The `setResult` calls expected for the declared result names `L` and the returned mapping
`M`: one for each name of `L` that is a key of `M` with a data object, in the order of `L`. -/
def expectedSetResults (M : List (String × PyValue)) (L : List String) : List Event :=
  L.filterMap fun n =>
    match M.lookup n with
    | some (PyValue.dataObject d) => some (Event.setResult n d)
    | _ => none

/-- The line logged for a declared result name that is missing from the returned mapping. -/
def missingResultLine (name : String) : Event :=
  Event.qCritical ("No result named " ++ name ++ " defined in output dictionary.")

/-- The state in which the loop over the child names ends. -/
def OperatorPython.ChildHarvest.state : OperatorPython.ChildHarvest → OperatorPython
  | OperatorPython.ChildHarvest.finished op _ => op
  | OperatorPython.ChildHarvest.noProducer op => op

/-- The sample operator: script `good`, description `desc` (results `a`, `b`; child `c`). -/
def sampleOperator : OperatorPython :=
  match ((OperatorPython.new sampleOperatorHost).setScript sampleOperatorHost
      "good").setJSONDescription sampleOperatorHost "desc" with
  | some op => op
  | none => OperatorPython.new sampleOperatorHost

/-- The `name` value of an entry of `results` or `children`, when it has one. -/
def entryName (entry : JsonValue) : Option String :=
  match entry.member "name" with
  | some (JsonValue.string s) => some s
  | _ => none

/-- The `name` values of the entries of an array, in array order. -/
def entryNames : JsonValue → List String
  | JsonValue.array entries => entries.filterMap entryName
  | _ => []

/-- The `name` value of the first entry of an array. -/
def firstEntryName : JsonValue → List String
  | JsonValue.array (first :: _) => (entryName first).toList
  | _ => []

/-- The result names a description declares: the `name` values of the entries of `results`, in
array order. -/
def declaredResultNames (root : JsonValue) : List String :=
  ((root.member "results").map entryNames).getD []

/-- The child name a description declares: the `name` value of the first entry of `children`. -/
def declaredChildNames (root : JsonValue) : List String :=
  ((root.member "children").map firstEntryName).getD []

/-- The value is a string or is absent (null). -/
def stringOrNull : JsonValue → Bool
  | JsonValue.null => true
  | JsonValue.string _ => true
  | _ => false

/-- The entry is an object whose `name` and `label`, when present, are strings. -/
def entryWellFormed : JsonValue → Bool
  | JsonValue.object ms =>
    stringOrNull ((ms.lookup "name").getD JsonValue.null) &&
      stringOrNull ((ms.lookup "label").getD JsonValue.null)
  | _ => false

/-- The value is absent (null) or an array of well-formed entries. -/
def entriesWellFormed : JsonValue → Bool
  | JsonValue.null => true
  | JsonValue.array entries => entries.all entryWellFormed
  | _ => false

/-- The description follows the schema `{label: string, results: [{name, label}],
children: [{name}]}`, every part optional. -/
def wellFormedDescription : JsonValue → Bool
  | JsonValue.object ms =>
    stringOrNull ((ms.lookup "label").getD JsonValue.null) &&
      (entriesWellFormed ((ms.lookup "results").getD JsonValue.null) &&
        entriesWellFormed ((ms.lookup "children").getD JsonValue.null))
  | _ => false

/-- The sample description. -/
def sampleDescription : JsonValue :=
  JsonValue.object
    [("label", JsonValue.string "Sample"),
     ("results", JsonValue.array
        [JsonValue.object [("name", JsonValue.string "a"), ("label", JsonValue.string "A")],
         JsonValue.object [("name", JsonValue.string "b")]]),
     ("children", JsonValue.array [JsonValue.object [("name", JsonValue.string "c")]])]

/-- The sample host on a platform where a name of 16 or more characters is no longer in place
when it is read through the pointer `name` (it reads as the empty text); `long` parses to a
description declaring the result `a_result_name_of_25_chars`, and the script returns data
object 10 under that name. -/
def freedNameHost : OperatorHost :=
  { sampleOperatorHost with
    readName := fun name => if name.length < 16 then name else ""
    jsonParse := fun str =>
      if str = "long" then
        some (JsonValue.object
          [("results", JsonValue.array
              [JsonValue.object [("name", JsonValue.string "a_result_name_of_25_chars")]])])
      else none
    call := fun f _ =>
      if f = 3 then some (PyResult.dict [("a_result_name_of_25_chars", PyValue.dataObject 10)])
      else none }

/-- An operator with script `good` and description `long` (result
`a_result_name_of_25_chars`). -/
def longNameOperator : OperatorPython :=
  match ((OperatorPython.new freedNameHost).setScript freedNameHost
      "good").setJSONDescription freedNameHost "long" with
  | some op => op
  | none => OperatorPython.new freedNameHost

/-! ### Notions used for the `children` array, `clone` and the operator XML -/

/-- The warning `setJSONDescription` logs when `children` has `n` entries, `n` other than 1. -/
def onlyOneChildWarning (n : Nat) : Event :=
  Event.qCritical ("Only one child dataset is supported for now. Found " ++
    toString n ++ " but only the first will be used")

/-- The parts of a description read before `children` follow the schema: the root is an object,
`label` is a string or absent, `results` is absent or an array of well-formed entries. -/
def labelAndResultsWellFormed : JsonValue → Bool
  | JsonValue.object ms =>
    stringOrNull ((ms.lookup "label").getD JsonValue.null) &&
      entriesWellFormed ((ms.lookup "results").getD JsonValue.null)
  | _ => false

/-- The entry is an object whose `name`, when present, is a string. -/
def childEntryWellFormed : JsonValue → Bool
  | JsonValue.object ms => stringOrNull ((ms.lookup "name").getD JsonValue.null)
  | _ => false

/-- A description with two children, `c` and `d`. -/
def twoChildrenDescription : JsonValue :=
  JsonValue.object
    [("children", JsonValue.array
        [JsonValue.object [("name", JsonValue.string "c")],
         JsonValue.object [("name", JsonValue.string "d")]])]

/-- A description whose two children are numbers, not objects. -/
def numberChildrenDescription : JsonValue :=
  JsonValue.object [("children", JsonValue.array [JsonValue.number 1, JsonValue.number 2])]

/-- The sample host, with `two` parsing to the description with children `c` and `d`, and
`numbers` parsing to the description whose children are numbers. -/
def childrenHost : OperatorHost :=
  { sampleOperatorHost with
    jsonParse := fun str =>
      if str = "two" then some twoChildrenDescription
      else if str = "numbers" then some numberChildrenDescription
      else none }

/-- The events of the second state are those of the first followed by new ones. -/
def EventsExtend (a b : OperatorPython) : Prop :=
  ∃ new : List Event, b.events = a.events ++ new

/-- The member `clone()`: a new operator, in the same interpreter, given the label, the script
and the JSON description of this one; `none` when the JSON library raises. -/
def OperatorPython.clone (h : OperatorHost) (op : OperatorPython) : Option OperatorPython :=
  (((OperatorPython.newIn h op.modules).setLabel op.Label).setScript h
    op.Script).setJSONDescription h op.JSONDescription

/-- The C string that `QByteArray::data()` hands over: the bytes before the first NUL. -/
def cString (s : String) : String :=
  String.mk (s.data.takeWhile fun c => c.toNat != 0)

/-- The characters `QString(const char*)` makes of a C string: a byte below 128 stands for
itself; from the first byte above 127 on, the text is what the 8-bit decoder of the toolkit makes
of the remaining bytes (`decodeHigh`). -/
def fromCStringChars (decodeHigh : List Char → List Char) : List Char → List Char
  | [] => []
  | c :: rest =>
    if c.toNat < 128 then c :: fromCStringChars decodeHigh rest else decodeHigh (c :: rest)

/-- The conversion `QString(const char*)`. -/
def fromCString (decodeHigh : List Char → List Char) (s : String) : String :=
  String.mk (fromCStringChars decodeHigh s.data)

/-- The call `xml_attribute::as_string()`: the value, the empty string for the null attribute. -/
def as_string (a : Option String) : String :=
  a.getD ""

/-- The member `OperatorPython::serialize(ns)`: the element `ns` after the call (the return
value is `true`). -/
def OperatorPython.serialize (op : OperatorPython) (ns : XmlNode) : XmlNode :=
  (ns.append_attribute "label" (cString (toLatin1 op.Label))).append_attribute "script"
    (cString (toLatin1 op.Script))

/-- The member `OperatorPython::deserialize(ns)`: the return value and the state after the
call. -/
def OperatorPython.deserialize (h : OperatorHost) (decodeHigh : List Char → List Char)
    (ns : XmlNode) (op : OperatorPython) : Bool × OperatorPython :=
  (true,
    (op.setLabel (fromCString decodeHigh (as_string (ns.attr "label")))).setScript h
      (fromCString decodeHigh (as_string (ns.attr "script"))))

/-- The action is a call of `deserialize`. -/
def OutlineAction.isDeserialize {D : Type} : OutlineAction D → Bool
  | OutlineAction.deserialize _ _ => true
  | _ => false

/-- The state reached when `addToPanel` is called in state `v` and the actions follow. -/
def panelRun {D : Type} (h : OutlineHost D) (v : OutlineView D) (acts : List (OutlineAction D)) :
    OutlineView D :=
  acts.foldl (outlineStep h) v.addToPanel

/-- There is a panel, and its `Show Grid` box is enabled exactly when `Show Axes` is checked. -/
def GridBoxFollowsAxes {D : Type} (v : OutlineView D) : Prop :=
  ∃ p, v.panel = some p ∧ p.showGridEnabled = p.showAxesChecked

/-- The `Show Grid` box of the panel, if any, shows the generate-grid flag of the decoration. -/
def GridBoxInSync {D : Type} (v : OutlineView D) : Prop :=
  ∀ p, v.panel = some p → p.showGridChecked = v.module.gridAxesGenerateGrid

/-- A hand-written state file that turns the grid on. -/
def gridOnXml : XmlNode :=
  XmlNode.mk "Module" []
    [XmlNode.mk "properties" [] [XmlNode.mk "grid_axes" [("grid", "true")] []]]

/-! ## Outline module: properties -/

section OutlineLemmas

variable {D : Type}

theorem as_bool_boolText (b : Bool) : as_bool (boolText b) = b := by
  cases b <;> rfl

theorem setVisibility_axesInv (val : Bool) (m : ModuleOutline D) (hm : AxesInv m) :
    AxesInv (m.setVisibility val) := by
  unfold AxesInv at *
  unfold ModuleOutline.setVisibility
  cases val <;> cases hax : m.m_axesVisibility <;> simp_all

theorem deserializeVisibility_axesInv (rootNode : XmlNode) (m : ModuleOutline D) (hm : AxesInv m) :
    AxesInv (ModuleOutline.deserializeVisibility rootNode m) := by
  unfold ModuleOutline.deserializeVisibility
  split
  · exact hm
  · split
    · exact hm
    · exact setVisibility_axesInv _ _ hm

theorem deserializeColor_flags (h : OutlineHost D) (rgb : Color D) (node : XmlNode) (m : ModuleOutline D) :
    (ModuleOutline.deserializeColor h rgb node m).gridAxesVisibility = m.gridAxesVisibility ∧
    (ModuleOutline.deserializeColor h rgb node m).m_axesVisibility = m.m_axesVisibility ∧
    (ModuleOutline.deserializeColor h rgb node m).repVisibility = m.repVisibility ∧
    (ModuleOutline.deserializeColor h rgb node m).gridAxesGenerateGrid = m.gridAxesGenerateGrid := by
  unfold ModuleOutline.deserializeColor
  split <;> simp [ModuleOutline.updateGridAxesColor]

theorem deserializeGridAxes_axesInv (h : OutlineHost D) (rgb : Color D) (rootNode : XmlNode)
    (m : ModuleOutline D) (hm : AxesInv m) :
    AxesInv (ModuleOutline.deserializeGridAxes h rgb rootNode m) := by
  unfold ModuleOutline.deserializeGridAxes
  split
  · exact hm
  · rename_i node _
    unfold AxesInv at *
    obtain ⟨h1, h2, _, _⟩ := deserializeColor_flags h rgb node
      (match node.attr "grid" with
       | some att => { (match node.attr "enabled" with
                        | some att => { m with gridAxesVisibility := as_bool att, m_axesVisibility := as_bool att }
                        | none => m) with gridAxesGenerateGrid := as_bool att }
       | none => (match node.attr "enabled" with
                  | some att => { m with gridAxesVisibility := as_bool att, m_axesVisibility := as_bool att }
                  | none => m))
    simp only [] at h1 h2 ⊢
    rw [h1, h2]
    cases node.attr "grid" <;> cases node.attr "enabled" <;> simp_all

theorem deserialize_axesInv (h : OutlineHost D) (rgb : Color D) (ns : XmlNode)
    (m : ModuleOutline D) (hm : AxesInv m) : AxesInv (m.deserialize h rgb ns).2 := by
  unfold ModuleOutline.deserialize
  split
  · exact hm
  · exact deserializeGridAxes_axesInv _ _ _ _ (deserializeVisibility_axesInv _ _ hm)

theorem showGridSetEnabled_module (b : Bool) (v : OutlineView D) :
    (v.showGridSetEnabled b).module = v.module := rfl

theorem showGridSetChecked_flags (b : Bool) (v : OutlineView D) :
    (v.showGridSetChecked b).module.gridAxesVisibility = v.module.gridAxesVisibility ∧
    (v.showGridSetChecked b).module.m_axesVisibility = v.module.m_axesVisibility ∧
    (v.showGridSetChecked b).module.repVisibility = v.module.repVisibility := by
  unfold OutlineView.showGridSetChecked
  split
  · simp
  · split <;> simp [OutlineView.showGridStateChanged]

theorem showAxesStateChanged_axesInv (state : CheckState) (v : OutlineView D) :
    AxesInv (v.showAxesStateChanged state).module := by
  unfold OutlineView.showAxesStateChanged AxesInv
  split
  · rw [showGridSetEnabled_module]
    have := showGridSetChecked_flags false
      ({ v with module := { v.module with gridAxesVisibility := decide (state = CheckState.Checked),
                                          m_axesVisibility := decide (state = CheckState.Checked) } } :
        OutlineView D)
    simp only [] at this ⊢
    rw [this.1, this.2.1]
    simp
  · rw [showGridSetEnabled_module]
    simp

theorem outlineStep_axesInv (h : OutlineHost D) (v : OutlineView D) (a : OutlineAction D)
    (hv : AxesInv v.module) : AxesInv (outlineStep h v a).module := by
  cases a with
  | setVisibility val => exact setVisibility_axesInv _ _ hv
  | deserialize rgb ns => exact deserialize_axesInv _ _ _ _ hv
  | addToPanel => exact hv
  | showAxes checked =>
    simp only [outlineStep, OutlineView.showAxesSetChecked]
    split
    · exact hv
    · split
      · exact hv
      · exact showAxesStateChanged_axesInv _ _
  | showGrid checked =>
    have := showGridSetChecked_flags checked v
    simp only [outlineStep, AxesInv] at *
    rw [this.1, this.2.1]
    exact hv
  | chooseColor c =>
    simp only [outlineStep, OutlineView.chosenColorChanged]
    split
    · exact hv
    · exact hv

theorem foldl_axesInv (h : OutlineHost D) (acts : List (OutlineAction D)) (v : OutlineView D)
    (hv : AxesInv v.module) : AxesInv (acts.foldl (outlineStep h) v).module := by
  induction acts generalizing v with
  | nil => exact hv
  | cons a rest ih => exact ih _ (outlineStep_axesInv h v a hv)

theorem outlineRun_axesInv (h : OutlineHost D) (acts : List (OutlineAction D)) :
    AxesInv (outlineRun h acts).module := by
  apply foldl_axesInv
  intro hvis
  simp [ModuleOutline.initialized, ModuleOutline.updateGridAxesColor,
    ModuleOutline.initializeGridAxes] at hvis


/-! ### C1, C2: visibility of the grid-axes decoration -/

/-- C1, as stated, fails: reading a state file that hides the module and enables the axes leaves
the decoration visible on a hidden module, and so does checking `Show Axes` on a hidden module. -/
theorem C1_counterexample :
    ¬ ((outlineRun sampleHost
          [OutlineAction.deserialize ⟨0, 0, 0⟩ hiddenWithAxesXml]).module.gridAxesVisibility = true →
        (outlineRun sampleHost
          [OutlineAction.deserialize ⟨0, 0, 0⟩ hiddenWithAxesXml]).module.repVisibility = true ∧
        (outlineRun sampleHost
          [OutlineAction.deserialize ⟨0, 0, 0⟩ hiddenWithAxesXml]).module.m_axesVisibility = true) ∧
    ¬ ((outlineRun sampleHost
          [OutlineAction.setVisibility false, OutlineAction.addToPanel,
           OutlineAction.showAxes true]).module.gridAxesVisibility = true →
        (outlineRun sampleHost
          [OutlineAction.setVisibility false, OutlineAction.addToPanel,
           OutlineAction.showAxes true]).module.repVisibility = true ∧
        (outlineRun sampleHost
          [OutlineAction.setVisibility false, OutlineAction.addToPanel,
           OutlineAction.showAxes true]).module.m_axesVisibility = true) := by
  constructor <;> decide

/-- C1 (amended): in every state reachable from initialize the grid-axes decoration is visible
only if the axes-visibility flag is true, and right after any `setVisibility` call it is visible
only if the representation is visible and the axes-visibility flag is true. -/
theorem C1_gridAxes_visible_only_if (h : OutlineHost D) (acts : List (OutlineAction D)) :
    ((outlineRun h acts).module.gridAxesVisibility = true →
      (outlineRun h acts).module.m_axesVisibility = true) ∧
    ∀ val : Bool,
      ((outlineRun h acts).module.setVisibility val).gridAxesVisibility = true →
        ((outlineRun h acts).module.setVisibility val).repVisibility = true ∧
        ((outlineRun h acts).module.setVisibility val).m_axesVisibility = true := by
  have hinv := outlineRun_axesInv h acts
  refine ⟨hinv, ?_⟩
  intro val
  unfold AxesInv at hinv
  unfold ModuleOutline.setVisibility
  cases val <;> cases hax : (outlineRun h acts).module.m_axesVisibility <;> simp_all

/-- C1 (amended), on a run that shows the axes of a visible module. -/
theorem C1_gridAxes_visible_only_if_witness :
    (outlineRun sampleHost
        [OutlineAction.addToPanel, OutlineAction.showAxes true]).module.gridAxesVisibility = true ∧
    (outlineRun sampleHost
        [OutlineAction.addToPanel, OutlineAction.showAxes true]).module.m_axesVisibility = true ∧
    ((outlineRun sampleHost
        [OutlineAction.addToPanel, OutlineAction.showAxes true]).module.setVisibility true).repVisibility
      = true :=
  ⟨by decide,
   (C1_gridAxes_visible_only_if sampleHost
      [OutlineAction.addToPanel, OutlineAction.showAxes true]).1 (by decide),
   ((C1_gridAxes_visible_only_if sampleHost
      [OutlineAction.addToPanel, OutlineAction.showAxes true]).2 true (by decide)).1⟩

/-- C2: in every state reachable from initialize, `setVisibility(false)` hides the grid-axes
decoration and keeps the axes-visibility flag, and after `setVisibility(true)` the decoration is
visible if and only if the stored axes-visibility flag is true. -/
theorem C2_setVisibility_gridAxes (h : OutlineHost D) (acts : List (OutlineAction D)) :
    ((outlineRun h acts).module.setVisibility false).gridAxesVisibility = false ∧
    ((outlineRun h acts).module.setVisibility false).m_axesVisibility
      = (outlineRun h acts).module.m_axesVisibility ∧
    ((outlineRun h acts).module.setVisibility true).m_axesVisibility
      = (outlineRun h acts).module.m_axesVisibility ∧
    (((outlineRun h acts).module.setVisibility true).gridAxesVisibility = true ↔
      (outlineRun h acts).module.m_axesVisibility = true) := by
  have hinv := outlineRun_axesInv h acts
  unfold AxesInv at hinv
  unfold ModuleOutline.setVisibility
  cases hax : (outlineRun h acts).module.m_axesVisibility <;> simp_all

/-! ### C3, C4: the persisted XML fragment -/

theorem child_append_child (ns c : XmlNode) (nm : String) (hns : ns.child nm = none)
    (hc : c.name = nm) : (ns.append_child c).child nm = some c := by
  unfold XmlNode.child at *
  have hkids : (ns.append_child c).children = ns.children ++ [c] := rfl
  rw [hkids, List.find?_append, hns]
  simp [List.find?, hc]

theorem deserialize_serialize (h : OutlineHost D) (rgb : Color D) (ns : XmlNode)
    (m m' : ModuleOutline D) (hns : ns.child "properties" = none) :
    m'.deserialize h rgb (m.serialize h ns) =
      (h.baseDeserialize (m.serialize h ns),
        { repVisibility := m.repVisibility
          repDiffuseColor :=
            ⟨h.text.as_double (h.text.write m.gridAxesDiffuseColor.r),
             h.text.as_double (h.text.write m.gridAxesDiffuseColor.g),
             h.text.as_double (h.text.write m.gridAxesDiffuseColor.b)⟩
          gridAxesVisibility := m.gridAxesVisibility
          gridAxesGenerateGrid := m.gridAxesGenerateGrid
          gridAxesDiffuseColor :=
            ⟨h.text.as_double (h.text.write m.gridAxesDiffuseColor.r),
             h.text.as_double (h.text.write m.gridAxesDiffuseColor.g),
             h.text.as_double (h.text.write m.gridAxesDiffuseColor.b)⟩
          gridAxesTextColor :=
            ⟨h.text.as_double (h.text.write m.gridAxesDiffuseColor.r),
             h.text.as_double (h.text.write m.gridAxesDiffuseColor.g),
             h.text.as_double (h.text.write m.gridAxesDiffuseColor.b)⟩
          m_axesVisibility := m.gridAxesVisibility }) := by
  have hroot : (m.serialize h ns).child "properties" = some (ModuleOutline.serializeProperties h m) :=
    child_append_child ns _ _ hns rfl
  unfold ModuleOutline.deserialize
  rw [hroot]
  simp [ModuleOutline.deserializeGridAxes, ModuleOutline.deserializeVisibility,
    ModuleOutline.deserializeColor, ModuleOutline.serializeProperties,
    ModuleOutline.serializeColor, ModuleOutline.updateGridAxesColor, ModuleOutline.setVisibility,
    ModuleOutline.visibility, XmlNode.child, XmlNode.attr, XmlNode.append_child,
    XmlNode.append_attribute, XmlNode.children, XmlNode.attrs, XmlNode.name, as_bool_boolText]
  split <;> rfl

theorem setVisibility_frame (val : Bool) (m : ModuleOutline D) :
    (m.setVisibility val).repVisibility = val ∧
    (m.setVisibility val).m_axesVisibility = m.m_axesVisibility ∧
    (m.setVisibility val).gridAxesGenerateGrid = m.gridAxesGenerateGrid ∧
    (m.setVisibility val).gridAxesDiffuseColor = m.gridAxesDiffuseColor ∧
    (m.setVisibility val).gridAxesTextColor = m.gridAxesTextColor ∧
    (m.setVisibility val).repDiffuseColor = m.repDiffuseColor := by
  unfold ModuleOutline.setVisibility
  cases val <;> cases hax : m.m_axesVisibility <;> simp [hax]

theorem deserializeVisibility_absent (rootNode : XmlNode) (m : ModuleOutline D)
    (habs : ((rootNode.child "visibility").bind fun n => n.attr "enabled") = none) :
    ModuleOutline.deserializeVisibility rootNode m = m := by
  unfold ModuleOutline.deserializeVisibility
  generalize rootNode.child "visibility" = v at habs
  cases v with
  | none => rfl
  | some node =>
    simp only [Option.some_bind] at habs
    simp [habs]

theorem deserializeVisibility_present (rootNode : XmlNode) (m : ModuleOutline D) (att : String)
    (hatt : ((rootNode.child "visibility").bind fun n => n.attr "enabled") = some att) :
    ModuleOutline.deserializeVisibility rootNode m = m.setVisibility (as_bool att) := by
  unfold ModuleOutline.deserializeVisibility
  generalize rootNode.child "visibility" = v at hatt
  cases v with
  | none => simp at hatt
  | some node =>
    simp only [Option.some_bind] at hatt
    simp [hatt]

theorem deserializeColor_absent (h : OutlineHost D) (rgb : Color D) (node : XmlNode)
    (m : ModuleOutline D) (habs : node.child "color" = none) :
    ModuleOutline.deserializeColor h rgb node m = m := by
  unfold ModuleOutline.deserializeColor
  simp [habs]

theorem deserializeGridAxes_frame (h : OutlineHost D) (rgb : Color D) (rootNode : XmlNode)
    (m : ModuleOutline D) :
    (ModuleOutline.deserializeGridAxes h rgb rootNode m).repVisibility = m.repVisibility ∧
    (((rootNode.child "grid_axes").bind fun n => n.attr "enabled") = none →
      (ModuleOutline.deserializeGridAxes h rgb rootNode m).m_axesVisibility = m.m_axesVisibility ∧
      (ModuleOutline.deserializeGridAxes h rgb rootNode m).gridAxesVisibility
        = m.gridAxesVisibility) ∧
    (((rootNode.child "grid_axes").bind fun n => n.attr "grid") = none →
      (ModuleOutline.deserializeGridAxes h rgb rootNode m).gridAxesGenerateGrid
        = m.gridAxesGenerateGrid) ∧
    (((rootNode.child "grid_axes").bind fun n => n.child "color") = none →
      (ModuleOutline.deserializeGridAxes h rgb rootNode m).gridAxesDiffuseColor
        = m.gridAxesDiffuseColor ∧
      (ModuleOutline.deserializeGridAxes h rgb rootNode m).gridAxesTextColor
        = m.gridAxesTextColor ∧
      (ModuleOutline.deserializeGridAxes h rgb rootNode m).repDiffuseColor
        = m.repDiffuseColor) := by
  unfold ModuleOutline.deserializeGridAxes
  generalize rootNode.child "grid_axes" = g
  cases g with
  | none => simp
  | some node =>
    simp only [Option.some_bind]
    generalize hm2 : (match node.attr "grid" with
      | some att => { (match node.attr "enabled" with
                        | some att => { m with gridAxesVisibility := as_bool att,
                                               m_axesVisibility := as_bool att }
                        | none => m) with gridAxesGenerateGrid := as_bool att }
      | none => (match node.attr "enabled" with
                  | some att => { m with gridAxesVisibility := as_bool att,
                                         m_axesVisibility := as_bool att }
                  | none => m)) = m2
    obtain ⟨c1, c2, c3, c4⟩ := deserializeColor_flags h rgb node m2
    refine ⟨?_, ?_, ?_, ?_⟩
    · rw [c3, ← hm2]
      cases node.attr "grid" <;> cases node.attr "enabled" <;> rfl
    · intro he
      rw [c1, c2, ← hm2, he]
      cases node.attr "grid" <;> exact ⟨rfl, rfl⟩
    · intro hg
      rw [c4, ← hm2, hg]
      cases node.attr "enabled" <;> rfl
    · intro hc
      rw [deserializeColor_absent h rgb node m2 hc, ← hm2]
      cases node.attr "grid" <;> cases node.attr "enabled" <;> exact ⟨rfl, rfl, rfl⟩

/-- C3, as stated, fails: a hidden module whose axes were enabled is written with
`grid_axes enabled="false"`, and reading that back clears the axes-visibility flag. -/
theorem C3_counterexample :
    hiddenAxesOnModule.m_axesVisibility = true ∧
    ¬ ((hiddenAxesOnModule.deserialize sampleHost ⟨0, 0, 0⟩
          (hiddenAxesOnModule.serialize sampleHost emptyModuleNode)).2.m_axesVisibility
        = hiddenAxesOnModule.m_axesVisibility) := by
  constructor <;> decide

/-- C3 (amended): serializing a module into an element that has no `properties` child yet and
deserializing the result, on that module or on another initialized one, reproduces the module
visibility, the visibility of the grid-axes decoration and the generate-grid flag; the receiving
axes-visibility flag becomes the serialized decoration visibility, so it is reproduced when the
flag and the decoration agreed; each colour channel whose written text reads back as the same
value is reproduced. -/
theorem C3_serialize_deserialize (h : OutlineHost D) (rgb : Color D) (ns : XmlNode)
    (m m' : ModuleOutline D) (hns : ns.child "properties" = none) :
    (m'.deserialize h rgb (m.serialize h ns)).2.visibility = m.visibility ∧
    (m'.deserialize h rgb (m.serialize h ns)).2.gridAxesVisibility = m.gridAxesVisibility ∧
    (m'.deserialize h rgb (m.serialize h ns)).2.gridAxesGenerateGrid = m.gridAxesGenerateGrid ∧
    (m'.deserialize h rgb (m.serialize h ns)).2.m_axesVisibility = m.gridAxesVisibility ∧
    (m.m_axesVisibility = m.gridAxesVisibility →
      (m'.deserialize h rgb (m.serialize h ns)).2.m_axesVisibility = m.m_axesVisibility) ∧
    (h.text.as_double (h.text.write m.gridAxesDiffuseColor.r) = m.gridAxesDiffuseColor.r →
      (m'.deserialize h rgb (m.serialize h ns)).2.gridAxesDiffuseColor.r = m.gridAxesDiffuseColor.r) ∧
    (h.text.as_double (h.text.write m.gridAxesDiffuseColor.g) = m.gridAxesDiffuseColor.g →
      (m'.deserialize h rgb (m.serialize h ns)).2.gridAxesDiffuseColor.g = m.gridAxesDiffuseColor.g) ∧
    (h.text.as_double (h.text.write m.gridAxesDiffuseColor.b) = m.gridAxesDiffuseColor.b →
      (m'.deserialize h rgb (m.serialize h ns)).2.gridAxesDiffuseColor.b = m.gridAxesDiffuseColor.b) := by
  rw [deserialize_serialize h rgb ns m m' hns]
  refine ⟨rfl, rfl, rfl, rfl, ?_, ?_, ?_, ?_⟩
  · intro hagree
    exact hagree.symm
  · intro hr
    exact hr
  · intro hg
    exact hg
  · intro hb
    exact hb

/-- C3 (amended), on a visible module showing its axes, read back by a hidden module. -/
theorem C3_serialize_deserialize_witness :
    emptyModuleNode.child "properties" = none ∧
    (hiddenAxesOnModule.deserialize sampleHost ⟨5, 6, 7⟩
        (axesShownModule.serialize sampleHost emptyModuleNode)).2.visibility = true ∧
    (hiddenAxesOnModule.deserialize sampleHost ⟨5, 6, 7⟩
        (axesShownModule.serialize sampleHost emptyModuleNode)).2.m_axesVisibility
      = axesShownModule.m_axesVisibility ∧
    (hiddenAxesOnModule.deserialize sampleHost ⟨5, 6, 7⟩
        (axesShownModule.serialize sampleHost emptyModuleNode)).2.gridAxesDiffuseColor.r
      = axesShownModule.gridAxesDiffuseColor.r ∧
    (hiddenAxesOnModule.deserialize sampleHost ⟨5, 6, 7⟩
        (axesShownModule.serialize sampleHost emptyModuleNode)).2.gridAxesDiffuseColor.g
      = axesShownModule.gridAxesDiffuseColor.g ∧
    (hiddenAxesOnModule.deserialize sampleHost ⟨5, 6, 7⟩
        (axesShownModule.serialize sampleHost emptyModuleNode)).2.gridAxesDiffuseColor.b
      = axesShownModule.gridAxesDiffuseColor.b :=
  ⟨rfl,
   (C3_serialize_deserialize sampleHost ⟨5, 6, 7⟩ emptyModuleNode axesShownModule
      hiddenAxesOnModule rfl).1,
   (C3_serialize_deserialize sampleHost ⟨5, 6, 7⟩ emptyModuleNode axesShownModule
      hiddenAxesOnModule rfl).2.2.2.2.1 (by decide),
   (C3_serialize_deserialize sampleHost ⟨5, 6, 7⟩ emptyModuleNode axesShownModule
      hiddenAxesOnModule rfl).2.2.2.2.2.1 (by decide),
   (C3_serialize_deserialize sampleHost ⟨5, 6, 7⟩ emptyModuleNode axesShownModule
      hiddenAxesOnModule rfl).2.2.2.2.2.2.1 (by decide),
   (C3_serialize_deserialize sampleHost ⟨5, 6, 7⟩ emptyModuleNode axesShownModule
      hiddenAxesOnModule rfl).2.2.2.2.2.2.2 (by decide)⟩

/-- C4, as stated, fails: an input that has `visibility/enabled` and no `grid_axes/enabled` hides
the grid-axes decoration of a module that was showing it. -/
theorem C4_counterexample :
    gridAxesEnabledAttr hideOnlyXml = none ∧
    axesShownModule.gridAxesVisibility = true ∧
    ¬ ((axesShownModule.deserialize sampleHost ⟨0, 0, 0⟩ hideOnlyXml).2.gridAxesVisibility
        = axesShownModule.gridAxesVisibility) := by
  refine ⟨by decide, by decide, by decide⟩

/-- C4 (amended): for every XML input of `deserialize`, an absent `visibility/enabled` keeps the
representation visibility, an absent `grid_axes/enabled` keeps the axes-visibility flag and
leaves the decoration visibility as the `visibility` step left it (unchanged when
`visibility/enabled` is absent too, as `setVisibility` of the read value set it otherwise), an
absent `grid_axes/grid` keeps the generate-grid flag, and an absent `color` element keeps the
colour; an absent enclosing element counts as an absent attribute. -/
theorem C4_absent_attribute_keeps (h : OutlineHost D) (rgb : Color D) (ns : XmlNode)
    (m : ModuleOutline D) :
    (visibilityEnabledAttr ns = none →
      (m.deserialize h rgb ns).2.repVisibility = m.repVisibility) ∧
    (gridAxesEnabledAttr ns = none →
      (m.deserialize h rgb ns).2.m_axesVisibility = m.m_axesVisibility) ∧
    (gridAxesEnabledAttr ns = none → visibilityEnabledAttr ns = none →
      (m.deserialize h rgb ns).2.gridAxesVisibility = m.gridAxesVisibility) ∧
    (gridAxesEnabledAttr ns = none → ∀ att, visibilityEnabledAttr ns = some att →
      (m.deserialize h rgb ns).2.gridAxesVisibility
        = (m.setVisibility (as_bool att)).gridAxesVisibility) ∧
    (gridAxesGridAttr ns = none →
      (m.deserialize h rgb ns).2.gridAxesGenerateGrid = m.gridAxesGenerateGrid) ∧
    (gridAxesColorNode ns = none →
      (m.deserialize h rgb ns).2.gridAxesDiffuseColor = m.gridAxesDiffuseColor ∧
      (m.deserialize h rgb ns).2.gridAxesTextColor = m.gridAxesTextColor ∧
      (m.deserialize h rgb ns).2.repDiffuseColor = m.repDiffuseColor) := by
  unfold visibilityEnabledAttr gridAxesEnabledAttr gridAxesGridAttr gridAxesColorNode gridAxesNode
    ModuleOutline.deserialize
  cases ns.child "properties" with
  | none => simp
  | some rootNode =>
    simp only [Option.some_bind]
    obtain ⟨f1, f2, f3, f4⟩ :=
      deserializeGridAxes_frame h rgb rootNode (ModuleOutline.deserializeVisibility rootNode m)
    refine ⟨?_, ?_, ?_, ?_, ?_, ?_⟩
    · intro hv
      rw [f1, deserializeVisibility_absent rootNode m hv]
    · intro he
      rw [(f2 he).1]
      generalize hv : ((rootNode.child "visibility").bind fun n => n.attr "enabled") = v
      cases v with
      | none => rw [deserializeVisibility_absent rootNode m hv]
      | some att =>
        rw [deserializeVisibility_present rootNode m att hv]
        exact (setVisibility_frame _ m).2.1
    · intro he hv
      rw [(f2 he).2, deserializeVisibility_absent rootNode m hv]
    · intro he att hv
      rw [(f2 he).2, deserializeVisibility_present rootNode m att hv]
    · intro hg
      rw [f3 hg]
      generalize hv : ((rootNode.child "visibility").bind fun n => n.attr "enabled") = v
      cases v with
      | none => rw [deserializeVisibility_absent rootNode m hv]
      | some att =>
        rw [deserializeVisibility_present rootNode m att hv]
        exact (setVisibility_frame _ m).2.2.1
    · intro hc
      obtain ⟨g1, g2, g3⟩ := f4 hc
      rw [g1, g2, g3]
      generalize hv : ((rootNode.child "visibility").bind fun n => n.attr "enabled") = v
      cases v with
      | none => rw [deserializeVisibility_absent rootNode m hv]; exact ⟨rfl, rfl, rfl⟩
      | some att =>
        rw [deserializeVisibility_present rootNode m att hv]
        exact ⟨(setVisibility_frame _ m).2.2.2.1, (setVisibility_frame _ m).2.2.2.2.1,
          (setVisibility_frame _ m).2.2.2.2.2⟩

/-- C4 (amended), on an input with an empty `properties` element and on one that only hides the
module. -/
theorem C4_absent_attribute_keeps_witness :
    (visibilityEnabledAttr emptyPropertiesXml = none ∧
      gridAxesEnabledAttr emptyPropertiesXml = none ∧
      (axesShownModule.deserialize sampleHost ⟨5, 6, 7⟩ emptyPropertiesXml).2.repVisibility
        = axesShownModule.repVisibility ∧
      (axesShownModule.deserialize sampleHost ⟨5, 6, 7⟩ emptyPropertiesXml).2.gridAxesVisibility
        = axesShownModule.gridAxesVisibility) ∧
    (gridAxesEnabledAttr hideOnlyXml = none ∧
      visibilityEnabledAttr hideOnlyXml = some "false" ∧
      gridAxesGridAttr hideOnlyXml = none ∧
      gridAxesColorNode hideOnlyXml = none ∧
      (axesShownModule.deserialize sampleHost ⟨5, 6, 7⟩ hideOnlyXml).2.m_axesVisibility
        = axesShownModule.m_axesVisibility ∧
      (axesShownModule.deserialize sampleHost ⟨5, 6, 7⟩ hideOnlyXml).2.gridAxesVisibility
        = (axesShownModule.setVisibility (as_bool "false")).gridAxesVisibility ∧
      (axesShownModule.deserialize sampleHost ⟨5, 6, 7⟩ hideOnlyXml).2.gridAxesGenerateGrid
        = axesShownModule.gridAxesGenerateGrid ∧
      (axesShownModule.deserialize sampleHost ⟨5, 6, 7⟩ hideOnlyXml).2.gridAxesDiffuseColor
        = axesShownModule.gridAxesDiffuseColor) :=
  ⟨⟨by decide, by decide,
    (C4_absent_attribute_keeps sampleHost ⟨5, 6, 7⟩ emptyPropertiesXml axesShownModule).1
      (by decide),
    (C4_absent_attribute_keeps sampleHost ⟨5, 6, 7⟩ emptyPropertiesXml axesShownModule).2.2.1
      (by decide) (by decide)⟩,
   ⟨by decide, by decide, by decide, rfl,
    (C4_absent_attribute_keeps sampleHost ⟨5, 6, 7⟩ hideOnlyXml axesShownModule).2.1 (by decide),
    (C4_absent_attribute_keeps sampleHost ⟨5, 6, 7⟩ hideOnlyXml axesShownModule).2.2.2.1
      (by decide) "false" (by decide),
    (C4_absent_attribute_keeps sampleHost ⟨5, 6, 7⟩ hideOnlyXml axesShownModule).2.2.2.2.1
      (by decide),
    ((C4_absent_attribute_keeps sampleHost ⟨5, 6, 7⟩ hideOnlyXml axesShownModule).2.2.2.2.2
      rfl).1⟩⟩

/-- With a `color` element that has `g` and `b` but no `r`, the red channel after `deserialize`
is what the local array `rgb` held on entry, not the red channel the module had. -/
theorem deserialize_color_without_r :
    axesShownModule.gridAxesDiffuseColor.r = 0 ∧
    (axesShownModule.deserialize sampleHost ⟨5, 6, 7⟩ colorWithoutRedXml).2.gridAxesDiffuseColor.r
      = 5 := by
  constructor <;> decide

end OutlineLemmas

/-! ## Python operator: properties -/

section OperatorLemmas

theorem emit_frame (op : OperatorPython) (e : Event) :
    (op.emit e).Script = op.Script ∧ (op.emit e).TransformMethod = op.TransformMethod ∧
    (op.emit e).Label = op.Label ∧ (op.emit e).m_resultNames = op.m_resultNames ∧
    (op.emit e).m_childDataSourceNames = op.m_childDataSourceNames ∧
    (op.emit e).OperatorModule = op.OperatorModule ∧ (op.emit e).Code = op.Code ∧
    (op.emit e).jsonDescription = op.jsonDescription :=
  ⟨rfl, rfl, rfl, rfl, rfl, rfl, rfl, rfl⟩

theorem setScript_same (h : OperatorHost) (T : String) (op : OperatorPython)
    (hsame : op.Script = T) : op.setScript h T = op := by
  unfold OperatorPython.setScript
  simp [hsame]

theorem setScript_changed (h : OperatorHost) (T : String) (op : OperatorPython)
    (hne : op.Script ≠ T) :
    (op.setScript h T).Script = T ∧ (op.setScript h T).Label = op.Label ∧
    (op.setScript h T).TransformMethod = transformLookup h op.modules op.Label T ∧
    (op.setScript h T).Code = h.compileString (toLatin1 T) (toLatin1 op.Label) := by
  unfold OperatorPython.setScript transformLookup
  simp only [hne, ne_eq, not_false_eq_true, if_true]
  cases hc : h.compileString (toLatin1 T) (toLatin1 op.Label) with
  | none => simp [OperatorPython.emit, hc]
  | some code =>
    cases he : h.execCodeModule (op.modules.lookup (toLatin1 ("tomviz_" ++ op.Label)))
        (toLatin1 ("tomviz_" ++ op.Label)) code with
    | none => simp [OperatorPython.emit, hc, he]
    | some pymodule =>
      cases hg : h.getAttrString pymodule "transform_scalars" with
      | none => simp [OperatorPython.emit, hc, he, hg]
      | some f => simp [OperatorPython.emit, hc, he, hg]

theorem setScript_script (h : OperatorHost) (T : String) (op : OperatorPython) :
    (op.setScript h T).Script = T := by
  by_cases hsame : op.Script = T
  · rw [setScript_same h T op hsame, hsame]
  · exact (setScript_changed h T op hsame).1

theorem sameScript_trans {a b c : OperatorPython} (hab : SameScript a b) (hbc : SameScript b c) :
    SameScript a c :=
  ⟨hab.1.trans hbc.1, hab.2.1.trans hbc.2.1, hab.2.2.trans hbc.2.2⟩

theorem resultNameStep_sameScript (i : Nat) (v : JsonValue) (op op' : OperatorPython)
    (hrun : OperatorPython.resultNameStep i v op = some op') : SameScript op' op := by
  unfold OperatorPython.resultNameStep at hrun
  split at hrun
  · simp only [Option.map_eq_some'] at hrun
    obtain ⟨s, _, hs⟩ := hrun
    subst hs
    exact ⟨rfl, rfl, rfl⟩
  · simp only [Option.some.injEq] at hrun
    subst hrun
    exact ⟨rfl, rfl, rfl⟩

theorem resultLabelStep_sameScript (i : Nat) (v : JsonValue) (op op' : OperatorPython)
    (hrun : OperatorPython.resultLabelStep i v op = some op') : SameScript op' op := by
  unfold OperatorPython.resultLabelStep at hrun
  split at hrun
  · simp only [Option.map_eq_some'] at hrun
    obtain ⟨s, _, hs⟩ := hrun
    subst hs
    exact ⟨rfl, rfl, rfl⟩
  · simp only [Option.some.injEq] at hrun
    subst hrun
    exact ⟨rfl, rfl, rfl⟩

theorem resultsLoop_sameScript (rn : JsonValue) :
    ∀ (k i : Nat) (op op' : OperatorPython),
      OperatorPython.resultsLoop rn k i op = some op' → SameScript op' op
  | 0, i, op, op', hrun => by
    simp only [OperatorPython.resultsLoop, Option.some.injEq] at hrun
    subst hrun
    exact ⟨rfl, rfl, rfl⟩
  | k + 1, i, op, op', hrun => by
    simp only [OperatorPython.resultsLoop, Option.bind_eq_some] at hrun
    obtain ⟨entry, _, nameValue, _, op1, h1, labelValue, _, op2, h2, hrest⟩ := hrun
    exact sameScript_trans (resultsLoop_sameScript rn k (i + 1) op2 op' hrest)
      (sameScript_trans (resultLabelStep_sameScript _ _ _ _ h2)
        (resultNameStep_sameScript _ _ _ _ h1))

theorem childCountStep_sameScript (size : Nat) (op : OperatorPython) :
    SameScript (OperatorPython.childCountStep size op) op := by
  unfold OperatorPython.childCountStep
  split <;> exact ⟨rfl, rfl, rfl⟩

theorem childNameStep_sameScript (v : JsonValue) (op op' : OperatorPython)
    (hrun : OperatorPython.childNameStep v op = some op') : SameScript op' op := by
  unfold OperatorPython.childNameStep at hrun
  split at hrun
  · simp only [Option.map_eq_some'] at hrun
    obtain ⟨s, _, hs⟩ := hrun
    subst hs
    exact ⟨rfl, rfl, rfl⟩
  · simp only [Option.some.injEq] at hrun
    subst hrun
    exact ⟨rfl, rfl, rfl⟩

theorem childrenStep_sameScript (node : JsonValue) (op op' : OperatorPython)
    (hrun : OperatorPython.childrenStep node op = some op') : SameScript op' op := by
  unfold OperatorPython.childrenStep at hrun
  split at hrun
  · split at hrun
    · simp only [Option.bind_eq_some] at hrun
      obtain ⟨first, _, nameValue, _, hlast⟩ := hrun
      exact sameScript_trans (childNameStep_sameScript _ _ _ hlast)
        (sameScript_trans ⟨rfl, rfl, rfl⟩ (childCountStep_sameScript _ op))
    · simp only [Option.some.injEq] at hrun
      subst hrun
      exact childCountStep_sameScript _ op
  · simp only [Option.some.injEq] at hrun
    subst hrun
    exact ⟨rfl, rfl, rfl⟩

theorem labelStep_sameScript (v : JsonValue) (op op' : OperatorPython)
    (hrun : OperatorPython.labelStep v op = some op') : SameScript op' op := by
  unfold OperatorPython.labelStep at hrun
  split at hrun
  · simp only [Option.map_eq_some'] at hrun
    obtain ⟨s, _, hs⟩ := hrun
    subst hs
    exact ⟨rfl, rfl, rfl⟩
  · simp only [Option.some.injEq] at hrun
    subst hrun
    exact ⟨rfl, rfl, rfl⟩

theorem resultsStep_sameScript (v : JsonValue) (op op' : OperatorPython)
    (hrun : OperatorPython.resultsStep v op = some op') : SameScript op' op := by
  unfold OperatorPython.resultsStep at hrun
  split at hrun
  · exact sameScript_trans (resultsLoop_sameScript _ _ _ _ _ hrun) ⟨rfl, rfl, rfl⟩
  · simp only [Option.some.injEq] at hrun
    subst hrun
    exact ⟨rfl, rfl, rfl⟩

theorem setJSONDescription_sameScript (h : OperatorHost) (str : String) (op op' : OperatorPython)
    (hrun : op.setJSONDescription h str = some op') : SameScript op' op := by
  unfold OperatorPython.setJSONDescription at hrun
  split at hrun
  · simp only [Option.some.injEq] at hrun
    subst hrun
    exact ⟨rfl, rfl, rfl⟩
  · split at hrun
    · simp only [Option.some.injEq] at hrun
      subst hrun
      exact ⟨rfl, rfl, rfl⟩
    · simp only [Option.bind_eq_some] at hrun
      obtain ⟨labelNode, _, op1, h1, resultsNode, _, op3, h3, childNode, _, hchildren⟩ := hrun
      exact sameScript_trans (childrenStep_sameScript _ _ _ hchildren)
        (sameScript_trans (resultsStep_sameScript _ _ _ h3)
          (sameScript_trans
            (show SameScript { op1 with m_resultNames := [], m_childDataSourceNames := [] } op1
              from ⟨rfl, rfl, rfl⟩)
            (labelStep_sameScript _ _ _ h1)))

theorem harvestResults_sameScript (h : OperatorHost) (M : List (String × PyValue)) :
    ∀ (names : List String) (st : OperatorPython × Bool),
      SameScript (OperatorPython.harvestResults h M names st).1 st.1
  | [], st => ⟨rfl, rfl, rfl⟩
  | name :: rest, (op, err) => by
    unfold OperatorPython.harvestResults
    split
    · exact sameScript_trans (harvestResults_sameScript h M rest _) ⟨rfl, rfl, rfl⟩
    · split
      · exact sameScript_trans (harvestResults_sameScript h M rest _) ⟨rfl, rfl, rfl⟩
      · exact sameScript_trans (harvestResults_sameScript h M rest _) ⟨rfl, rfl, rfl⟩
    · exact sameScript_trans (harvestResults_sameScript h M rest _) ⟨rfl, rfl, rfl⟩

theorem harvestChildren_sameScript (h : OperatorHost) (M : List (String × PyValue)) :
    ∀ (names : List String) (st : OperatorPython × Bool),
      (∀ op2 err, OperatorPython.harvestChildren h M names st = OperatorPython.ChildHarvest.finished op2 err →
        SameScript op2 st.1) ∧
      (∀ op2, OperatorPython.harvestChildren h M names st = OperatorPython.ChildHarvest.noProducer op2 →
        SameScript op2 st.1)
  | [], (op, err) => by
    constructor
    · intro op2 err2 hrun
      simp only [OperatorPython.harvestChildren, OperatorPython.ChildHarvest.finished.injEq] at hrun
      rw [← hrun.1]
      exact ⟨rfl, rfl, rfl⟩
    · intro op2 hrun
      simp [OperatorPython.harvestChildren] at hrun
  | name :: rest, (op, err) => by
    unfold OperatorPython.harvestChildren
    split
    · have ih := harvestChildren_sameScript h M rest
        (op.emit (Event.qCritical
          ("No child data source named " ++ name ++ " defined in output dictionary")), err)
      exact ⟨fun op2 e hrun => sameScript_trans (ih.1 op2 e hrun) ⟨rfl, rfl, rfl⟩,
        fun op2 hrun => sameScript_trans (ih.2 op2 hrun) ⟨rfl, rfl, rfl⟩⟩
    · rename_i d _
      split
      · have ih := harvestChildren_sameScript h M rest (op.emit (Event.setChildDataSource d), err)
        exact ⟨fun op2 e hrun => sameScript_trans (ih.1 op2 e hrun) ⟨rfl, rfl, rfl⟩,
          fun op2 hrun => sameScript_trans (ih.2 op2 hrun) ⟨rfl, rfl, rfl⟩⟩
      · constructor
        · intro op2 e hrun
          simp at hrun
        · intro op2 hrun
          simp only [OperatorPython.ChildHarvest.noProducer.injEq] at hrun
          rw [← hrun]
          exact ⟨rfl, rfl, rfl⟩
    · rename_i raises _
      have ih := harvestChildren_sameScript h M rest (op, err || raises)
      exact ⟨fun op2 e hrun => ih.1 op2 e hrun, fun op2 hrun => ih.2 op2 hrun⟩

theorem harvest_sameScript (h : OperatorHost) (M : List (String × PyValue)) (op : OperatorPython) :
    SameScript (OperatorPython.harvest h M op).2 op := by
  have hr := harvestResults_sameScript h M op.m_resultNames (op, false)
  have hc := harvestChildren_sameScript h M op.m_childDataSourceNames
    (OperatorPython.harvestResults h M op.m_resultNames (op, false))
  unfold OperatorPython.harvest
  split
  · rename_i op2 hrun
    exact sameScript_trans (hc.2 op2 hrun) hr
  · rename_i op2 err hrun
    exact sameScript_trans ⟨rfl, rfl, rfl⟩ (sameScript_trans (hc.1 op2 err hrun) hr)

theorem invoke_sameScript (h : OperatorHost) (data f : Nat) (op : OperatorPython) :
    SameScript (OperatorPython.invoke h data f op).2 op := by
  unfold OperatorPython.invoke
  split
  · exact ⟨rfl, rfl, rfl⟩
  · exact ⟨rfl, rfl, rfl⟩
  · exact sameScript_trans (harvest_sameScript h _ _) ⟨rfl, rfl, rfl⟩

theorem applyTransform_sameScript (h : OperatorHost) (data : Nat) (op : OperatorPython) :
    SameScript (op.applyTransform h data).2 op := by
  unfold OperatorPython.applyTransform
  split
  · exact ⟨rfl, rfl, rfl⟩
  · split
    · exact invoke_sameScript h data _ op
    · exact ⟨rfl, rfl, rfl⟩

end OperatorLemmas

/-! ### C5, C6: `setScript` -/

/-- C5 fails on the code: after `setScript` with a script that defines `transform_scalars`,
`setScript` with a script that compiles and executes but defines no `transform_scalars` stores
the new script and holds the callable of the first script again, because the code is executed
in the re-used module `tomviz_<label>`, which still has it; on its own the second script leaves
no callable. -/
theorem C5_setScript_keeps_stale_callable :
    ((OperatorPython.new reuseHost).setScript reuseHost
        "def transform_scalars(d): pass").TransformMethod = some 7 ∧
    (((OperatorPython.new reuseHost).setScript reuseHost
        "def transform_scalars(d): pass").setScript reuseHost "x = 1").Script = "x = 1" ∧
    (((OperatorPython.new reuseHost).setScript reuseHost
        "def transform_scalars(d): pass").setScript reuseHost "x = 1").TransformMethod
      = some 7 ∧
    ((OperatorPython.new reuseHost).setScript reuseHost "x = 1").TransformMethod = none ∧
    Runnable (((OperatorPython.new reuseHost).setScript reuseHost
        "def transform_scalars(d): pass").setScript reuseHost "x = 1") := by
  refine ⟨by decide, by decide, by decide, by decide, ⟨by decide, by decide, by decide⟩⟩

/-- C6: `setScript(T)` on an operator whose script already is `T` changes nothing: same script,
same compiled code, same callable, no interpreter call, no signal, no log line; hence calling
`setScript(T)` twice leaves the state of a single call, whether or not `T` compiles. -/
theorem C6_setScript_same_text (h : OperatorHost) (op : OperatorPython) (T : String)
    (hsame : op.Script = T) :
    op.setScript h T = op ∧
    (op.setScript h T).events = op.events ∧
    ∀ op0 : OperatorPython, (op0.setScript h T).setScript h T = op0.setScript h T := by
  refine ⟨setScript_same h T op hsame, ?_, ?_⟩
  · rw [setScript_same h T op hsame]
  · intro op0
    exact setScript_same h T _ (setScript_script h T op0)

/-- C6, on an operator whose script failed to compile. -/
theorem C6_setScript_same_text_witness :
    ((OperatorPython.new sampleOperatorHost).setScript sampleOperatorHost "bad").Script = "bad" ∧
    ((OperatorPython.new sampleOperatorHost).setScript sampleOperatorHost "bad").TransformMethod
      = none ∧
    (((OperatorPython.new sampleOperatorHost).setScript sampleOperatorHost "bad").setScript
        sampleOperatorHost "bad").events
      = ((OperatorPython.new sampleOperatorHost).setScript sampleOperatorHost "bad").events :=
  ⟨by decide, by decide,
   (C6_setScript_same_text sampleOperatorHost
      ((OperatorPython.new sampleOperatorHost).setScript sampleOperatorHost "bad") "bad"
      (by decide)).2.1⟩

/-! ### C7: `applyTransform` on an operator that cannot run -/

/-- C7: when the operator is not runnable (empty script, or no callable, or `tomviz.utils` not
imported), `applyTransform` returns true and leaves the state as it was: no call of a callable,
no `setResult`, no `setChildDataSource`, nothing done with the data object. -/
theorem C7_applyTransform_not_runnable (h : OperatorHost) (data : Nat) (op : OperatorPython)
    (hnot : ¬ Runnable op) :
    op.applyTransform h data = (true, op) ∧
    (op.applyTransform h data).1 = true ∧
    (op.applyTransform h data).2.events = op.events := by
  have key : op.applyTransform h data = (true, op) := by
    unfold OperatorPython.applyTransform
    by_cases hs : op.Script = ""
    · simp [hs]
    · simp only [hs, if_false]
      cases hm : op.OperatorModule with
      | none => rfl
      | some m =>
        cases ht : op.TransformMethod with
        | none => rfl
        | some f =>
          exact absurd ⟨hs, by simp [hm], by simp [ht]⟩ hnot
  rw [key]
  exact ⟨rfl, rfl, rfl⟩

/-- C7, on a fresh operator (empty script) and on one whose script failed to compile. -/
theorem C7_applyTransform_not_runnable_witness :
    ¬ Runnable (OperatorPython.new sampleOperatorHost) ∧
    ((OperatorPython.new sampleOperatorHost).applyTransform sampleOperatorHost 7).1 = true ∧
    ¬ Runnable ((OperatorPython.new sampleOperatorHost).setScript sampleOperatorHost "bad") ∧
    (((OperatorPython.new sampleOperatorHost).setScript sampleOperatorHost "bad").applyTransform
        sampleOperatorHost 7).2.events
      = ((OperatorPython.new sampleOperatorHost).setScript sampleOperatorHost "bad").events :=
  ⟨fun hr => hr.1 (by decide),
   (C7_applyTransform_not_runnable sampleOperatorHost 7 (OperatorPython.new sampleOperatorHost)
      (fun hr => hr.1 (by decide))).2.1,
   fun hr => hr.2.2 (by decide),
   (C7_applyTransform_not_runnable sampleOperatorHost 7
      ((OperatorPython.new sampleOperatorHost).setScript sampleOperatorHost "bad")
      (fun hr => hr.2.2 (by decide))).2.2⟩

/-! ### C8, C9: harvesting the returned mapping -/

/-- Where a declared name is no longer in place when read through the pointer `name`, the
result is not found although the mapping has it: no `setResult` call is made, the line for a
missing result is logged, and the call returns true. -/
theorem applyTransform_long_name_not_found :
    longNameOperator.m_resultNames = ["a_result_name_of_25_chars"] ∧
    freedNameHost.readName "a_result_name_of_25_chars" = "" ∧
    expectedSetResults [("a_result_name_of_25_chars", PyValue.dataObject 10)]
        longNameOperator.m_resultNames
      = [Event.setResult "a_result_name_of_25_chars" 10] ∧
    (longNameOperator.applyTransform freedNameHost 7).2.events.filter Event.isSetResult = [] ∧
    missingResultLine "a_result_name_of_25_chars"
      ∈ (longNameOperator.applyTransform freedNameHost 7).2.events ∧
    (longNameOperator.applyTransform freedNameHost 7).1 = true := by
  refine ⟨by decide, by decide, by decide, by decide, by decide, by decide⟩

theorem getD_append_length (pre ys : List JsonValue) (y d : JsonValue) :
    (pre ++ y :: ys).getD pre.length d = y := by
  induction pre with
  | nil => rfl
  | cons a pre ih => simpa using ih

theorem stringOrNull_cases (v : JsonValue) (hv : stringOrNull v = true) :
    v = JsonValue.null ∨ ∃ s, v = JsonValue.string s := by
  cases v <;> simp [stringOrNull] at hv
  · exact Or.inl rfl
  · exact Or.inr ⟨_, rfl⟩

theorem resultsLoop_wellFormed :
    ∀ (ys : List JsonValue) (pre : List JsonValue) (op : OperatorPython),
      ys.all entryWellFormed = true →
      ∃ op', OperatorPython.resultsLoop (JsonValue.array (pre ++ ys)) ys.length pre.length op
          = some op' ∧
        op'.m_resultNames = op.m_resultNames ++ ys.filterMap entryName ∧
        op'.m_childDataSourceNames = op.m_childDataSourceNames
  | [], pre, op, _ => ⟨op, rfl, by simp, rfl⟩
  | y :: ys, pre, op, hall => by
    simp only [List.all_cons, Bool.and_eq_true] at hall
    obtain ⟨hy, hys⟩ := hall
    cases y with
    | object ms =>
      simp only [entryWellFormed, Bool.and_eq_true] at hy
      obtain ⟨hname, hlabel⟩ := hy
      have hidx : (JsonValue.array (pre ++ JsonValue.object ms :: ys)).index pre.length
          = some (JsonValue.object ms) := by
        simp only [JsonValue.index, getD_append_length]
      have hpre : pre ++ JsonValue.object ms :: ys = (pre ++ [JsonValue.object ms]) ++ ys := by
        simp
      have hlen : (pre ++ [JsonValue.object ms]).length = pre.length + 1 := by simp
      obtain ⟨op1, hop1, hn1, hc1⟩ : ∃ op1,
          OperatorPython.resultNameStep pre.length ((ms.lookup "name").getD JsonValue.null) op
            = some op1 ∧
          op1.m_resultNames = op.m_resultNames ++ (entryName (JsonValue.object ms)).toList ∧
          op1.m_childDataSourceNames = op.m_childDataSourceNames := by
        rcases stringOrNull_cases _ hname with hnull | ⟨s, hs⟩
        · refine ⟨op, ?_, ?_, rfl⟩
          · simp [OperatorPython.resultNameStep, hnull, JsonValue.isNull]
          · simp [entryName, JsonValue.member, hnull]
        · refine ⟨{ op.emit (Event.resultSetName pre.length s) with
              m_resultNames := op.m_resultNames ++ [s] }, ?_, ?_, rfl⟩
          · simp only [OperatorPython.resultNameStep, hs, JsonValue.isNull, JsonValue.asCString,
              Bool.not_false, if_true, Option.map_some']
          · simp [entryName, JsonValue.member, hs]
      obtain ⟨op2, hop2, hn2, hc2⟩ : ∃ op2,
          OperatorPython.resultLabelStep pre.length ((ms.lookup "label").getD JsonValue.null) op1
            = some op2 ∧
          op2.m_resultNames = op1.m_resultNames ∧
          op2.m_childDataSourceNames = op1.m_childDataSourceNames := by
        rcases stringOrNull_cases _ hlabel with hnull | ⟨s, hs⟩
        · exact ⟨op1, by simp [OperatorPython.resultLabelStep, hnull, JsonValue.isNull], rfl, rfl⟩
        · refine ⟨op1.emit (Event.resultSetLabel pre.length s), ?_, rfl, rfl⟩
          simp only [OperatorPython.resultLabelStep, hs, JsonValue.isNull, JsonValue.asCString,
            Bool.not_false, if_true, Option.map_some']
      obtain ⟨op3, hop3, hn3, hc3⟩ :=
        resultsLoop_wellFormed ys (pre ++ [JsonValue.object ms]) op2 hys
      rw [← hpre, hlen] at hop3
      refine ⟨op3, ?_, ?_, ?_⟩
      · simp only [List.length_cons, OperatorPython.resultsLoop, hidx, Option.some_bind,
          JsonValue.member, hop1, hop2, hop3]
      · rw [hn3, hn2, hn1, List.filterMap_cons]
        cases hen : entryName (JsonValue.object ms) <;> simp
      · rw [hc3, hc2, hc1]
    | null => simp [entryWellFormed] at hy
    | bool b => simp [entryWellFormed] at hy
    | number n => simp [entryWellFormed] at hy
    | string s => simp [entryWellFormed] at hy
    | array xs => simp [entryWellFormed] at hy

theorem labelStep_wellFormed (v : JsonValue) (op : OperatorPython) (hv : stringOrNull v = true) :
    ∃ op1, OperatorPython.labelStep v op = some op1 := by
  rcases stringOrNull_cases v hv with hnull | ⟨s, hs⟩
  · exact ⟨op, by simp [OperatorPython.labelStep, hnull, JsonValue.isNull]⟩
  · exact ⟨op.setLabel s, by
      simp only [OperatorPython.labelStep, hs, JsonValue.isNull, JsonValue.asCString,
        Bool.not_false, if_true, Option.map_some']⟩

theorem resultsStep_wellFormed (v : JsonValue) (op : OperatorPython)
    (hv : entriesWellFormed v = true) :
    ∃ op3, OperatorPython.resultsStep v op = some op3 ∧
      op3.m_resultNames = op.m_resultNames ++ entryNames v ∧
      op3.m_childDataSourceNames = op.m_childDataSourceNames := by
  cases v with
  | null =>
    exact ⟨op, by simp [OperatorPython.resultsStep, JsonValue.isNull], by simp [entryNames], rfl⟩
  | array xs =>
    simp only [entriesWellFormed] at hv
    obtain ⟨op3, h1, h2, h3⟩ :=
      resultsLoop_wellFormed xs [] (op.emit (Event.setNumberOfResults xs.length)) hv
    refine ⟨op3, ?_, h2, h3⟩
    simpa [OperatorPython.resultsStep, JsonValue.isNull, JsonValue.size] using h1
  | bool b => simp [entriesWellFormed] at hv
  | number n => simp [entriesWellFormed] at hv
  | string s => simp [entriesWellFormed] at hv
  | object ms => simp [entriesWellFormed] at hv

theorem childrenStep_wellFormed (v : JsonValue) (op : OperatorPython)
    (hv : entriesWellFormed v = true) :
    ∃ op4, OperatorPython.childrenStep v op = some op4 ∧
      op4.m_resultNames = op.m_resultNames ∧
      op4.m_childDataSourceNames = op.m_childDataSourceNames ++ firstEntryName v := by
  cases v with
  | null =>
    exact ⟨op, by simp [OperatorPython.childrenStep, JsonValue.isNull], rfl,
      by simp [firstEntryName]⟩
  | array xs =>
    cases xs with
    | nil =>
      refine ⟨OperatorPython.childCountStep 0 op, ?_, ?_, ?_⟩
      · simp [OperatorPython.childrenStep, JsonValue.isNull, JsonValue.size]
      · simp [OperatorPython.childCountStep, OperatorPython.emit]
      · simp [OperatorPython.childCountStep, OperatorPython.emit, firstEntryName]
    | cons x rest =>
      simp only [entriesWellFormed, List.all_cons, Bool.and_eq_true] at hv
      obtain ⟨hx, _⟩ := hv
      cases x with
      | object ms =>
        simp only [entryWellFormed, Bool.and_eq_true] at hx
        have hcount : ∀ n : Nat,
            (OperatorPython.childCountStep n op).m_resultNames = op.m_resultNames ∧
            (OperatorPython.childCountStep n op).m_childDataSourceNames
              = op.m_childDataSourceNames := by
          intro n
          unfold OperatorPython.childCountStep
          split <;> exact ⟨rfl, rfl⟩
        rcases stringOrNull_cases _ hx.1 with hnull | ⟨s, hs⟩
        · refine ⟨(OperatorPython.childCountStep (rest.length + 1) op).emit
            (Event.setHasChildDataSource true), ?_, ?_, ?_⟩
          · simp [OperatorPython.childrenStep, JsonValue.isNull, JsonValue.size,
              JsonValue.index, JsonValue.member, OperatorPython.childNameStep, hnull]
          · exact (hcount _).1
          · simp only [firstEntryName, entryName, JsonValue.member, hnull, Option.toList,
              List.append_nil]
            exact (hcount _).2
        · refine ⟨{ (OperatorPython.childCountStep (rest.length + 1) op).emit
              (Event.setHasChildDataSource true) with
            m_childDataSourceNames :=
              ((OperatorPython.childCountStep (rest.length + 1) op).emit
                (Event.setHasChildDataSource true)).m_childDataSourceNames ++ [s] }, ?_, ?_, ?_⟩
          · simp [OperatorPython.childrenStep, JsonValue.isNull, JsonValue.size,
              JsonValue.index, JsonValue.member, OperatorPython.childNameStep, hs,
              JsonValue.asCString]
          · exact (hcount _).1
          · simp only [firstEntryName, entryName, JsonValue.member, hs, Option.toList]
            rw [← (hcount (rest.length + 1)).2]
            rfl
      | null => simp [entryWellFormed] at hx
      | bool b => simp [entryWellFormed] at hx
      | number n => simp [entryWellFormed] at hx
      | string s => simp [entryWellFormed] at hx
      | array ys => simp [entryWellFormed] at hx
  | bool b => simp [entriesWellFormed] at hv
  | number n => simp [entriesWellFormed] at hv
  | string s => simp [entriesWellFormed] at hv
  | object ms => simp [entriesWellFormed] at hv

theorem setJSONDescription_wellFormed (h : OperatorHost) (str : String) (op : OperatorPython)
    (root : JsonValue) (hne : op.jsonDescription ≠ str) (hparse : h.jsonParse str = some root)
    (hwf : wellFormedDescription root = true) :
    ∃ op', op.setJSONDescription h str = some op' ∧
      op'.m_resultNames = declaredResultNames root ∧
      op'.m_childDataSourceNames = declaredChildNames root := by
  cases root with
  | object ms =>
    simp only [wellFormedDescription, Bool.and_eq_true] at hwf
    obtain ⟨hlabel, hresults, hchildren⟩ := hwf
    obtain ⟨op1, h1⟩ := labelStep_wellFormed _ op hlabel
    obtain ⟨op3, h3, n3, c3⟩ := resultsStep_wellFormed _
      { op1 with m_resultNames := [], m_childDataSourceNames := [] } hresults
    obtain ⟨op4, h4, n4, c4⟩ := childrenStep_wellFormed _ op3 hchildren
    refine ⟨op4, ?_, ?_, ?_⟩
    · unfold OperatorPython.setJSONDescription
      simp only [hne, if_false, hparse, JsonValue.member, Option.some_bind, h1, h3, h4]
    · rw [n4, n3]
      rfl
    · rw [c4, c3]
      rfl
  | null => simp [wellFormedDescription] at hwf
  | bool b => simp [wellFormedDescription] at hwf
  | number n => simp [wellFormedDescription] at hwf
  | string s => simp [wellFormedDescription] at hwf
  | array xs => simp [wellFormedDescription] at hwf

/-- C10, as stated, fails: a text that does not parse leaves the result names and the child name
of the earlier description in place. -/
theorem C10_counterexample :
    (sampleOperatorHost.jsonParse "oops").isNone = true ∧
    (sampleOperator.setJSONDescription sampleOperatorHost "oops").map
        (fun op => (op.m_resultNames, op.m_childDataSourceNames))
      = some (["a", "b"], ["c"]) ∧
    ¬ ((sampleOperator.setJSONDescription sampleOperatorHost "oops").map
          (fun op => (op.m_resultNames, op.m_childDataSourceNames))
        = some ([], [])) := by
  refine ⟨by decide, by decide, by decide⟩

/-- C10 (amended): when the text differs from the stored description, parses and follows the
schema, `setJSONDescription` returns and the result-name list is exactly the `name` values of
the entries of `results` in array order and the child-name list is the `name` of the first entry
of `children`, with nothing left from an earlier call (both empty when the text declares no
results and no children); when the text equals the stored description nothing changes at all, and
when it does not parse both lists stay as they were. -/
theorem C10_setJSONDescription_lists (h : OperatorHost) (str : String) (op : OperatorPython) :
    (∀ root, op.jsonDescription ≠ str → h.jsonParse str = some root →
      wellFormedDescription root = true →
      ∃ op', op.setJSONDescription h str = some op' ∧
        op'.m_resultNames = declaredResultNames root ∧
        op'.m_childDataSourceNames = declaredChildNames root) ∧
    (op.jsonDescription = str → op.setJSONDescription h str = some op) ∧
    (op.jsonDescription ≠ str → h.jsonParse str = none →
      ∃ op', op.setJSONDescription h str = some op' ∧
        op'.m_resultNames = op.m_resultNames ∧
        op'.m_childDataSourceNames = op.m_childDataSourceNames) := by
  refine ⟨?_, ?_, ?_⟩
  · intro root hne hparse hwf
    exact setJSONDescription_wellFormed h str op root hne hparse hwf
  · intro hsame
    unfold OperatorPython.setJSONDescription
    simp [hsame]
  · intro hne hparse
    refine ⟨(op.emit (Event.qCritical "Failed to parse operator JSON")).emit
      (Event.qCritical str), ?_, rfl, rfl⟩
    unfold OperatorPython.setJSONDescription
    simp [hne, hparse]

/-- C10 (amended), on the sample operator: the description `plain` declares no results and no
children and empties both lists; the empty text is the stored description and changes nothing. -/
theorem C10_setJSONDescription_lists_witness :
    sampleOperator.m_resultNames = ["a", "b"] ∧
    (∃ op', sampleOperator.setJSONDescription sampleOperatorHost "plain" = some op' ∧
      op'.m_resultNames = [] ∧ op'.m_childDataSourceNames = []) ∧
    sampleOperator.setJSONDescription sampleOperatorHost "" = some sampleOperator ∧
    (∃ op', sampleOperator.setJSONDescription sampleOperatorHost "oops" = some op' ∧
      op'.m_resultNames = sampleOperator.m_resultNames ∧
      op'.m_childDataSourceNames = sampleOperator.m_childDataSourceNames) :=
  ⟨by decide,
   (C10_setJSONDescription_lists sampleOperatorHost "plain" sampleOperator).1
      (JsonValue.object [("label", JsonValue.string "Plain")]) (by decide) rfl (by decide),
   (C10_setJSONDescription_lists sampleOperatorHost "" sampleOperator).2.1 (by decide),
   (C10_setJSONDescription_lists sampleOperatorHost "oops" sampleOperator).2.2 (by decide) rfl⟩

/-! ### C11: a `children` array with several entries -/

theorem eventsExtend_refl (a : OperatorPython) : EventsExtend a a :=
  ⟨[], (List.append_nil _).symm⟩

theorem eventsExtend_trans {a b c : OperatorPython} (hab : EventsExtend a b)
    (hbc : EventsExtend b c) : EventsExtend a c := by
  obtain ⟨n1, h1⟩ := hab
  obtain ⟨n2, h2⟩ := hbc
  exact ⟨n1 ++ n2, by rw [h2, h1, List.append_assoc]⟩

theorem eventsExtend_emit (a : OperatorPython) (e : Event) : EventsExtend a (a.emit e) :=
  ⟨[e], rfl⟩

theorem resultNameStep_eventsExtend (i : Nat) (v : JsonValue) (op op' : OperatorPython)
    (hrun : OperatorPython.resultNameStep i v op = some op') : EventsExtend op op' := by
  unfold OperatorPython.resultNameStep at hrun
  split at hrun
  · simp only [Option.map_eq_some'] at hrun
    obtain ⟨s, _, hs⟩ := hrun
    subst hs
    exact ⟨[Event.resultSetName i s], rfl⟩
  · simp only [Option.some.injEq] at hrun
    subst hrun
    exact eventsExtend_refl _

theorem resultLabelStep_eventsExtend (i : Nat) (v : JsonValue) (op op' : OperatorPython)
    (hrun : OperatorPython.resultLabelStep i v op = some op') : EventsExtend op op' := by
  unfold OperatorPython.resultLabelStep at hrun
  split at hrun
  · simp only [Option.map_eq_some'] at hrun
    obtain ⟨s, _, hs⟩ := hrun
    subst hs
    exact ⟨[Event.resultSetLabel i s], rfl⟩
  · simp only [Option.some.injEq] at hrun
    subst hrun
    exact eventsExtend_refl _

theorem resultsLoop_eventsExtend (rn : JsonValue) :
    ∀ (k i : Nat) (op op' : OperatorPython),
      OperatorPython.resultsLoop rn k i op = some op' → EventsExtend op op'
  | 0, i, op, op', hrun => by
    simp only [OperatorPython.resultsLoop, Option.some.injEq] at hrun
    subst hrun
    exact eventsExtend_refl _
  | k + 1, i, op, op', hrun => by
    simp only [OperatorPython.resultsLoop, Option.bind_eq_some] at hrun
    obtain ⟨entry, _, nameValue, _, op1, h1, labelValue, _, op2, h2, hrest⟩ := hrun
    exact eventsExtend_trans (resultNameStep_eventsExtend _ _ _ _ h1)
      (eventsExtend_trans (resultLabelStep_eventsExtend _ _ _ _ h2)
        (resultsLoop_eventsExtend rn k (i + 1) op2 op' hrest))

theorem resultsStep_eventsExtend (v : JsonValue) (op op' : OperatorPython)
    (hrun : OperatorPython.resultsStep v op = some op') : EventsExtend op op' := by
  unfold OperatorPython.resultsStep at hrun
  split at hrun
  · exact eventsExtend_trans (eventsExtend_emit _ _) (resultsLoop_eventsExtend _ _ _ _ _ hrun)
  · simp only [Option.some.injEq] at hrun
    subst hrun
    exact eventsExtend_refl _

theorem labelStep_eventsExtend (v : JsonValue) (op op' : OperatorPython)
    (hrun : OperatorPython.labelStep v op = some op') : EventsExtend op op' := by
  unfold OperatorPython.labelStep at hrun
  split at hrun
  · simp only [Option.map_eq_some'] at hrun
    obtain ⟨s, _, hs⟩ := hrun
    subst hs
    exact ⟨[Event.labelModified], rfl⟩
  · simp only [Option.some.injEq] at hrun
    subst hrun
    exact eventsExtend_refl _

theorem childrenStep_several (e0 e1 : JsonValue) (rest : List JsonValue) (op : OperatorPython)
    (he0 : childEntryWellFormed e0 = true) :
    ∃ op', OperatorPython.childrenStep (JsonValue.array (e0 :: e1 :: rest)) op = some op' ∧
      op'.events = op.events ++
        [onlyOneChildWarning (rest.length + 2), Event.setHasChildDataSource true] ∧
      op'.m_childDataSourceNames = op.m_childDataSourceNames ++ (entryName e0).toList := by
  cases e0 with
  | object ms =>
    simp only [childEntryWellFormed] at he0
    have hcount : OperatorPython.childCountStep (rest.length + 2) op
        = op.emit (onlyOneChildWarning (rest.length + 2)) := by
      simp [OperatorPython.childCountStep, onlyOneChildWarning]
    rcases stringOrNull_cases _ he0 with hnull | ⟨s, hs⟩
    · refine ⟨(op.emit (onlyOneChildWarning (rest.length + 2))).emit
        (Event.setHasChildDataSource true), ?_, ?_, ?_⟩
      · simp [OperatorPython.childrenStep, JsonValue.isNull, JsonValue.size, JsonValue.index,
          JsonValue.member, OperatorPython.childNameStep, hnull, hcount]
      · simp [OperatorPython.emit]
      · simp [entryName, JsonValue.member, hnull, OperatorPython.emit]
    · refine ⟨{ (op.emit (onlyOneChildWarning (rest.length + 2))).emit
            (Event.setHasChildDataSource true) with
          m_childDataSourceNames := op.m_childDataSourceNames ++ [s] }, ?_, ?_, ?_⟩
      · simp [OperatorPython.childrenStep, JsonValue.isNull, JsonValue.size, JsonValue.index,
          JsonValue.member, OperatorPython.childNameStep, hs, JsonValue.asCString, hcount,
          OperatorPython.emit]
      · simp [OperatorPython.emit]
      · simp [entryName, JsonValue.member, hs]
  | null => simp [childEntryWellFormed] at he0
  | bool b => simp [childEntryWellFormed] at he0
  | number n => simp [childEntryWellFormed] at he0
  | string s => simp [childEntryWellFormed] at he0
  | array ys => simp [childEntryWellFormed] at he0

/-- C11, as stated, fails: a description that parses and whose `children` array holds two
numbers makes the JSON library raise when the `name` of entry 0 is read, so the call does not
complete. -/
theorem C11_counterexample :
    (childrenHost.jsonParse "numbers").isSome = true ∧
    (numberChildrenDescription.member "children").map JsonValue.size = some 2 ∧
    (sampleOperator.setJSONDescription childrenHost "numbers").isNone = true := by
  refine ⟨by decide, by decide, by decide⟩

/-- C11 (amended): for a text that differs from the stored description and parses to a
description whose label and results follow the schema, whose `children` array has n >= 2 entries
and whose entry 0 is an object with a string `name` or none, `setJSONDescription` completes,
logs the only-one-child warning, and leaves a child-name list that is exactly the `name` of
entry 0 (empty when entry 0 has none): it has at most one element and does not depend on the
entries with index >= 1. -/
theorem C11_children_first_entry_only (h : OperatorHost) (str : String) (op : OperatorPython)
    (root e0 e1 : JsonValue) (rest : List JsonValue)
    (hne : op.jsonDescription ≠ str) (hparse : h.jsonParse str = some root)
    (hpre : labelAndResultsWellFormed root = true)
    (hchildren : root.member "children" = some (JsonValue.array (e0 :: e1 :: rest)))
    (he0 : childEntryWellFormed e0 = true) :
    ∃ op', op.setJSONDescription h str = some op' ∧
      (∃ pre post : List Event,
        op'.events = op.events ++ pre ++ onlyOneChildWarning (rest.length + 2) :: post) ∧
      op'.m_childDataSourceNames = (entryName e0).toList ∧
      op'.m_childDataSourceNames.length ≤ 1 := by
  cases root with
  | object ms =>
    simp only [labelAndResultsWellFormed, Bool.and_eq_true] at hpre
    obtain ⟨hlabel, hresults⟩ := hpre
    simp only [JsonValue.member, Option.some.injEq] at hchildren
    obtain ⟨op1, h1⟩ := labelStep_wellFormed _ op hlabel
    obtain ⟨op3, h3, _, c3⟩ := resultsStep_wellFormed _
      { op1 with m_resultNames := [], m_childDataSourceNames := [] } hresults
    obtain ⟨op4, h4, e4, c4⟩ := childrenStep_several e0 e1 rest op3 he0
    obtain ⟨n1, hn1⟩ := labelStep_eventsExtend _ _ _ h1
    obtain ⟨n3, hn3⟩ := resultsStep_eventsExtend _ _ _ h3
    have hlist : op4.m_childDataSourceNames = (entryName e0).toList := by
      rw [c4, c3]
      rfl
    refine ⟨op4, ?_, ⟨n1 ++ n3, [Event.setHasChildDataSource true], ?_⟩, hlist, ?_⟩
    · unfold OperatorPython.setJSONDescription
      simp only [hne, if_false, hparse, JsonValue.member, Option.some_bind, h1, h3, hchildren,
        h4]
    · rw [e4, hn3]
      show (op1.events ++ n3) ++ _ = _
      rw [hn1]
      simp [List.append_assoc]
    · rw [hlist]
      cases entryName e0 <;> simp
  | null => simp [labelAndResultsWellFormed] at hpre
  | bool b => simp [labelAndResultsWellFormed] at hpre
  | number n => simp [labelAndResultsWellFormed] at hpre
  | string s => simp [labelAndResultsWellFormed] at hpre
  | array xs => simp [labelAndResultsWellFormed] at hpre

/-- C11 (amended), on the sample operator (child `c` declared) given a description with
children `c` and `d`: the call completes and the child-name list is `c` alone. -/
theorem C11_children_first_entry_only_witness :
    sampleOperator.jsonDescription ≠ "two" ∧
    labelAndResultsWellFormed twoChildrenDescription = true ∧
    childEntryWellFormed (JsonValue.object [("name", JsonValue.string "c")]) = true ∧
    (sampleOperator.setJSONDescription childrenHost "two").map
        (fun op => op.m_childDataSourceNames) = some ["c"] ∧
    ∃ op', sampleOperator.setJSONDescription childrenHost "two" = some op' ∧
      (∃ pre post : List Event,
        op'.events = sampleOperator.events ++ pre ++ onlyOneChildWarning 2 :: post) ∧
      op'.m_childDataSourceNames
        = (entryName (JsonValue.object [("name", JsonValue.string "c")])).toList ∧
      op'.m_childDataSourceNames.length ≤ 1 :=
  ⟨by decide, by decide, by decide, by decide,
   C11_children_first_entry_only childrenHost "two" sampleOperator twoChildrenDescription
      (JsonValue.object [("name", JsonValue.string "c")])
      (JsonValue.object [("name", JsonValue.string "d")]) []
      (by decide) rfl (by decide) rfl (by decide)⟩

/-! ### C12: `clone` -/

theorem setScript_jsonDescription (h : OperatorHost) (T : String) (op : OperatorPython) :
    (op.setScript h T).jsonDescription = op.jsonDescription := by
  unfold OperatorPython.setScript
  split
  · simp only []
    split
    · rfl
    · split
      · rfl
      · split <;> rfl
  · rfl

theorem resultNameStep_jsonDescription (i : Nat) (v : JsonValue) (op op' : OperatorPython)
    (hrun : OperatorPython.resultNameStep i v op = some op') :
    op'.jsonDescription = op.jsonDescription := by
  unfold OperatorPython.resultNameStep at hrun
  split at hrun
  · simp only [Option.map_eq_some'] at hrun
    obtain ⟨s, _, hs⟩ := hrun
    subst hs
    rfl
  · simp only [Option.some.injEq] at hrun
    subst hrun
    rfl

theorem resultLabelStep_jsonDescription (i : Nat) (v : JsonValue) (op op' : OperatorPython)
    (hrun : OperatorPython.resultLabelStep i v op = some op') :
    op'.jsonDescription = op.jsonDescription := by
  unfold OperatorPython.resultLabelStep at hrun
  split at hrun
  · simp only [Option.map_eq_some'] at hrun
    obtain ⟨s, _, hs⟩ := hrun
    subst hs
    rfl
  · simp only [Option.some.injEq] at hrun
    subst hrun
    rfl

theorem resultsLoop_jsonDescription (rn : JsonValue) :
    ∀ (k i : Nat) (op op' : OperatorPython),
      OperatorPython.resultsLoop rn k i op = some op' →
        op'.jsonDescription = op.jsonDescription
  | 0, i, op, op', hrun => by
    simp only [OperatorPython.resultsLoop, Option.some.injEq] at hrun
    subst hrun
    rfl
  | k + 1, i, op, op', hrun => by
    simp only [OperatorPython.resultsLoop, Option.bind_eq_some] at hrun
    obtain ⟨entry, _, nameValue, _, op1, h1, labelValue, _, op2, h2, hrest⟩ := hrun
    rw [resultsLoop_jsonDescription rn k (i + 1) op2 op' hrest,
      resultLabelStep_jsonDescription _ _ _ _ h2, resultNameStep_jsonDescription _ _ _ _ h1]

theorem resultsStep_jsonDescription (v : JsonValue) (op op' : OperatorPython)
    (hrun : OperatorPython.resultsStep v op = some op') :
    op'.jsonDescription = op.jsonDescription := by
  unfold OperatorPython.resultsStep at hrun
  split at hrun
  · rw [resultsLoop_jsonDescription _ _ _ _ _ hrun]
    rfl
  · simp only [Option.some.injEq] at hrun
    subst hrun
    rfl

theorem labelStep_jsonDescription (v : JsonValue) (op op' : OperatorPython)
    (hrun : OperatorPython.labelStep v op = some op') :
    op'.jsonDescription = op.jsonDescription := by
  unfold OperatorPython.labelStep at hrun
  split at hrun
  · simp only [Option.map_eq_some'] at hrun
    obtain ⟨s, _, hs⟩ := hrun
    subst hs
    rfl
  · simp only [Option.some.injEq] at hrun
    subst hrun
    rfl

theorem childCountStep_jsonDescription (size : Nat) (op : OperatorPython) :
    (OperatorPython.childCountStep size op).jsonDescription = op.jsonDescription := by
  unfold OperatorPython.childCountStep
  split <;> rfl

theorem childNameStep_jsonDescription (v : JsonValue) (op op' : OperatorPython)
    (hrun : OperatorPython.childNameStep v op = some op') :
    op'.jsonDescription = op.jsonDescription := by
  unfold OperatorPython.childNameStep at hrun
  split at hrun
  · simp only [Option.map_eq_some'] at hrun
    obtain ⟨s, _, hs⟩ := hrun
    subst hs
    rfl
  · simp only [Option.some.injEq] at hrun
    subst hrun
    rfl

theorem childrenStep_jsonDescription (node : JsonValue) (op op' : OperatorPython)
    (hrun : OperatorPython.childrenStep node op = some op') :
    op'.jsonDescription = op.jsonDescription := by
  unfold OperatorPython.childrenStep at hrun
  split at hrun
  · split at hrun
    · simp only [Option.bind_eq_some] at hrun
      obtain ⟨first, _, nameValue, _, hlast⟩ := hrun
      rw [childNameStep_jsonDescription _ _ _ hlast]
      exact childCountStep_jsonDescription _ op
    · simp only [Option.some.injEq] at hrun
      subst hrun
      exact childCountStep_jsonDescription _ op
  · simp only [Option.some.injEq] at hrun
    subst hrun
    rfl

/-- No path through `setJSONDescription` stores the text it is given. -/
theorem setJSONDescription_jsonDescription (h : OperatorHost) (str : String)
    (op op' : OperatorPython) (hrun : op.setJSONDescription h str = some op') :
    op'.jsonDescription = op.jsonDescription := by
  unfold OperatorPython.setJSONDescription at hrun
  split at hrun
  · simp only [Option.some.injEq] at hrun
    subst hrun
    rfl
  · split at hrun
    · simp only [Option.some.injEq] at hrun
      subst hrun
      rfl
    · simp only [Option.bind_eq_some] at hrun
      obtain ⟨labelNode, _, op1, h1, resultsNode, _, op3, h3, childNode, _, hchildren⟩ := hrun
      rw [childrenStep_jsonDescription _ _ _ hchildren, resultsStep_jsonDescription _ _ _ h3]
      exact labelStep_jsonDescription labelNode op op1 h1

theorem harvestResults_jsonDescription (h : OperatorHost) (M : List (String × PyValue)) :
    ∀ (names : List String) (st : OperatorPython × Bool),
      (OperatorPython.harvestResults h M names st).1.jsonDescription = st.1.jsonDescription
  | [], st => rfl
  | name :: rest, (op, err) => by
    unfold OperatorPython.harvestResults
    split
    · rw [harvestResults_jsonDescription h M rest]
      rfl
    · split
      · rw [harvestResults_jsonDescription h M rest]
        rfl
      · rw [harvestResults_jsonDescription h M rest]
        rfl
    · rw [harvestResults_jsonDescription h M rest]
      rfl

theorem harvestChildren_jsonDescription (h : OperatorHost) (M : List (String × PyValue)) :
    ∀ (names : List String) (st : OperatorPython × Bool),
      (OperatorPython.harvestChildren h M names st).state.jsonDescription
        = st.1.jsonDescription
  | [], (op, err) => rfl
  | name :: rest, (op, err) => by
    unfold OperatorPython.harvestChildren
    split
    · rw [harvestChildren_jsonDescription h M rest]
      rfl
    · split
      · rw [harvestChildren_jsonDescription h M rest]
        rfl
      · rfl
    · rw [harvestChildren_jsonDescription h M rest]

theorem harvest_jsonDescription (h : OperatorHost) (M : List (String × PyValue))
    (op : OperatorPython) :
    (OperatorPython.harvest h M op).2.jsonDescription = op.jsonDescription := by
  have hr := harvestResults_jsonDescription h M op.m_resultNames (op, false)
  have hc := harvestChildren_jsonDescription h M op.m_childDataSourceNames
    (OperatorPython.harvestResults h M op.m_resultNames (op, false))
  rw [hr] at hc
  rw [← hc]
  unfold OperatorPython.harvest
  cases OperatorPython.harvestChildren h M op.m_childDataSourceNames
      (OperatorPython.harvestResults h M op.m_resultNames (op, false)) <;> rfl

theorem applyTransform_jsonDescription (h : OperatorHost) (data : Nat) (op : OperatorPython) :
    (op.applyTransform h data).2.jsonDescription = op.jsonDescription := by
  unfold OperatorPython.applyTransform
  split
  · rfl
  · split
    · unfold OperatorPython.invoke
      split
      · rfl
      · rfl
      · rw [harvest_jsonDescription]
        rfl
    · rfl

/-- The stored description of an operator stays the empty text of the constructor. -/
theorem operatorRun_jsonDescription (h : OperatorHost) :
    ∀ (acts : List OperatorAction) (op op' : OperatorPython),
      operatorRun h acts op = some op' → op'.jsonDescription = op.jsonDescription
  | [], op, op', hrun => by
    simp only [operatorRun, Option.some.injEq] at hrun
    subst hrun
    rfl
  | a :: rest, op, op', hrun => by
    simp only [operatorRun, Option.bind_eq_some] at hrun
    obtain ⟨op1, hstep, hrest⟩ := hrun
    rw [operatorRun_jsonDescription h rest op1 op' hrest]
    cases a with
    | setLabel txt =>
      simp only [operatorStep, Option.some.injEq] at hstep
      subst hstep
      rfl
    | setScript str =>
      simp only [operatorStep, Option.some.injEq] at hstep
      subst hstep
      exact setScript_jsonDescription h str op
    | setJSONDescription str => exact setJSONDescription_jsonDescription h str op op1 hstep
    | applyTransform data =>
      simp only [operatorStep, Option.some.injEq] at hstep
      subst hstep
      exact applyTransform_jsonDescription h data op

theorem newIn_fields (h : OperatorHost) (modules : ModuleTable) :
    (OperatorPython.newIn h modules).jsonDescription = "" ∧
    (OperatorPython.newIn h modules).Script = "" ∧
    (OperatorPython.newIn h modules).TransformMethod = none ∧
    (OperatorPython.newIn h modules).m_resultNames = [] ∧
    (OperatorPython.newIn h modules).m_childDataSourceNames = [] ∧
    (OperatorPython.newIn h modules).modules = modules ∧
    (OperatorPython.newIn h modules).Label = "Python Operator" := by
  unfold OperatorPython.newIn
  split <;> exact ⟨rfl, rfl, rfl, rfl, rfl, rfl, rfl⟩

theorem new_fields (h : OperatorHost) :
    (OperatorPython.new h).jsonDescription = "" ∧ (OperatorPython.new h).Script = "" ∧
    (OperatorPython.new h).TransformMethod = none ∧ (OperatorPython.new h).m_resultNames = [] ∧
    (OperatorPython.new h).m_childDataSourceNames = [] := by
  obtain ⟨n1, n2, n3, n4, n5, _, _⟩ := newIn_fields h []
  exact ⟨n1, n2, n3, n4, n5⟩

theorem setScript_lists (h : OperatorHost) (T : String) (op : OperatorPython) :
    (op.setScript h T).m_resultNames = op.m_resultNames ∧
    (op.setScript h T).m_childDataSourceNames = op.m_childDataSourceNames ∧
    (op.setScript h T).Label = op.Label := by
  unfold OperatorPython.setScript
  split
  · simp only []
    split
    · exact ⟨rfl, rfl, rfl⟩
    · split
      · exact ⟨rfl, rfl, rfl⟩
      · split <;> exact ⟨rfl, rfl, rfl⟩
  · exact ⟨rfl, rfl, rfl⟩

/-- What `clone` gives for an operator reached from the constructor: the label and the script
are copied, the callable is what the three interpreter calls give for the copied script in the
interpreter as the operator left it, and the two name lists are empty, whatever the operator
declared. -/
theorem clone_of_reachable (h : OperatorHost) (acts : List OperatorAction) (op : OperatorPython)
    (hrun : operatorRun h acts (OperatorPython.new h) = some op) :
    ∃ c, op.clone h = some c ∧ c.Label = op.Label ∧ c.Script = op.Script ∧
      c.jsonDescription = "" ∧ c.m_resultNames = [] ∧ c.m_childDataSourceNames = [] ∧
      c.TransformMethod
        = (if op.Script = "" then none else transformLookup h op.modules op.Label op.Script) := by
  have hd : op.jsonDescription = "" := by
    rw [operatorRun_jsonDescription h acts _ op hrun]
    exact (new_fields h).1
  obtain ⟨n1, n2, n3, n4, n5, n6, _⟩ := newIn_fields h op.modules
  obtain ⟨l1, l2, l3⟩ :=
    setScript_lists h op.Script ((OperatorPython.newIn h op.modules).setLabel op.Label)
  have hjd : (((OperatorPython.newIn h op.modules).setLabel op.Label).setScript h
      op.Script).jsonDescription = "" := by
    rw [setScript_jsonDescription]
    exact n1
  refine ⟨((OperatorPython.newIn h op.modules).setLabel op.Label).setScript h op.Script,
    ?_, ?_, ?_, hjd, ?_, ?_, ?_⟩
  · unfold OperatorPython.clone OperatorPython.setJSONDescription OperatorPython.JSONDescription
    rw [hjd, hd]
    simp
  · rw [l3]
    rfl
  · exact setScript_script h op.Script _
  · rw [l1]
    exact n4
  · rw [l2]
    exact n5
  · by_cases hempty : op.Script = ""
    · rw [if_pos hempty, hempty]
      rw [setScript_same h "" ((OperatorPython.newIn h op.modules).setLabel op.Label) n2]
      exact n3
    · rw [if_neg hempty]
      have hne : ((OperatorPython.newIn h op.modules).setLabel op.Label).Script ≠ op.Script := by
        intro heq
        exact hempty (heq.symm.trans n2)
      rw [(setScript_changed h op.Script _ hne).2.2.1]
      show transformLookup h (OperatorPython.newIn h op.modules).modules op.Label op.Script = _
      rw [n6]

/-- C12 fails on the code: the sample operator declares results `a`, `b` and child `c`, yet its
stored description is still empty, and its clone has the same label and script, a callable
looked up again from the script, and empty result-name and child-name lists. -/
theorem C12_clone_drops_declared_names :
    sampleOperator.m_resultNames = ["a", "b"] ∧
    sampleOperator.m_childDataSourceNames = ["c"] ∧
    sampleOperator.JSONDescription = "" ∧
    (sampleOperator.clone sampleOperatorHost).map
        (fun c => (c.Label, c.Script, c.JSONDescription, c.TransformMethod))
      = some (sampleOperator.Label, sampleOperator.Script, "", some 3) ∧
    (sampleOperator.clone sampleOperatorHost).map
        (fun c => (c.m_resultNames, c.m_childDataSourceNames))
      = some ([], []) := by
  refine ⟨by decide, by decide, by decide, by decide, by decide⟩

/-! ### C13: the operator's XML attributes -/

section PanelLemmas

variable {D : Type}

theorem showGridSetChecked_some (b : Bool) (v : OutlineView D) (p : Panel)
    (hp : v.panel = some p) :
    (v.showGridSetChecked b).panel = some { p with showGridChecked := b } ∧
    (v.showGridSetChecked b).module.gridAxesGenerateGrid
      = (if p.showGridChecked = b then v.module.gridAxesGenerateGrid else b) ∧
    (v.showGridSetChecked b).module.gridAxesVisibility = v.module.gridAxesVisibility := by
  have hdef : v.showGridSetChecked b
      = if p.showGridChecked = b then v
        else OutlineView.showGridStateChanged
          (if b then CheckState.Checked else CheckState.Unchecked)
          { v with panel := some { p with showGridChecked := b } } := by
    unfold OutlineView.showGridSetChecked
    rw [hp]
  rw [hdef]
  by_cases hsame : p.showGridChecked = b
  · rw [if_pos hsame, if_pos hsame]
    refine ⟨?_, rfl, rfl⟩
    rw [hp]
    cases p
    simp only [] at hsame
    rw [hsame]
  · rw [if_neg hsame, if_neg hsame]
    refine ⟨rfl, ?_, rfl⟩
    cases b <;> rfl

theorem showAxesStateChanged_unchecked (v : OutlineView D) :
    v.showAxesStateChanged CheckState.Unchecked
      = OutlineView.showGridSetEnabled false
          (OutlineView.showGridSetChecked false
            { v with module := { v.module with gridAxesVisibility := false,
                                               m_axesVisibility := false } }) := rfl

theorem showAxesStateChanged_checked (v : OutlineView D) :
    v.showAxesStateChanged CheckState.Checked
      = OutlineView.showGridSetEnabled true
          { v with module := { v.module with gridAxesVisibility := true,
                                             m_axesVisibility := true } } := rfl

theorem showAxesStateChanged_some (b : Bool) (v : OutlineView D) (p : Panel)
    (hp : v.panel = some p) :
    (v.showAxesStateChanged (if b then CheckState.Checked else CheckState.Unchecked)).panel
      = some { p with showGridChecked := (b && p.showGridChecked), showGridEnabled := b } ∧
    (v.showAxesStateChanged
        (if b then CheckState.Checked else CheckState.Unchecked)).module.gridAxesGenerateGrid
      = (if b = false ∧ p.showGridChecked = true then false
          else v.module.gridAxesGenerateGrid) := by
  cases b with
  | true =>
    simp only [if_true, showAxesStateChanged_checked, OutlineView.showGridSetEnabled, hp]
    simp
  | false =>
    obtain ⟨g1, g2, _⟩ := showGridSetChecked_some false
      ({ v with module := { v.module with gridAxesVisibility := false,
                                          m_axesVisibility := false } } : OutlineView D) p hp
    simp only [Bool.false_eq_true, if_false, showAxesStateChanged_unchecked,
      OutlineView.showGridSetEnabled]
    rw [g1, g2]
    cases hc : p.showGridChecked <;> simp

theorem showAxesSetChecked_some (b : Bool) (v : OutlineView D) (p : Panel)
    (hp : v.panel = some p) (hchange : p.showAxesChecked ≠ b) :
    (v.showAxesSetChecked b).panel
      = some { showAxesChecked := b, showGridChecked := (b && p.showGridChecked),
               showGridEnabled := b } ∧
    (v.showAxesSetChecked b).module.gridAxesGenerateGrid
      = (if b = false ∧ p.showGridChecked = true then false
          else v.module.gridAxesGenerateGrid) := by
  unfold OutlineView.showAxesSetChecked
  rw [hp]
  simp only [hchange, if_false]
  exact showAxesStateChanged_some b
    ({ v with panel := some { p with showAxesChecked := b } } : OutlineView D)
    { p with showAxesChecked := b } rfl

theorem outlineStep_gridBoxFollowsAxes (h : OutlineHost D) (v : OutlineView D)
    (a : OutlineAction D) (hv : GridBoxFollowsAxes v) :
    GridBoxFollowsAxes (outlineStep h v a) := by
  obtain ⟨p, hp, hen⟩ := hv
  cases a with
  | setVisibility val => exact ⟨p, hp, hen⟩
  | deserialize rgb ns => exact ⟨p, hp, hen⟩
  | addToPanel => exact ⟨_, rfl, rfl⟩
  | showAxes checked =>
    by_cases hsame : p.showAxesChecked = checked
    · refine ⟨p, ?_, hen⟩
      simp only [outlineStep, OutlineView.showAxesSetChecked, hp, hsame, if_true]
    · exact ⟨_, (showAxesSetChecked_some checked v p hp hsame).1, rfl⟩
  | showGrid checked => exact ⟨_, (showGridSetChecked_some checked v p hp).1, hen⟩
  | chooseColor c =>
    refine ⟨p, ?_, hen⟩
    simp only [outlineStep, OutlineView.chosenColorChanged, hp]

theorem foldl_gridBoxFollowsAxes (h : OutlineHost D) (acts : List (OutlineAction D))
    (v : OutlineView D) (hv : GridBoxFollowsAxes v) :
    GridBoxFollowsAxes (acts.foldl (outlineStep h) v) := by
  induction acts generalizing v with
  | nil => exact hv
  | cons a rest ih => exact ih _ (outlineStep_gridBoxFollowsAxes h v a hv)

theorem outlineStep_gridBoxInSync (h : OutlineHost D) (v : OutlineView D)
    (a : OutlineAction D) (ha : a.isDeserialize = false) (hv : GridBoxInSync v) :
    GridBoxInSync (outlineStep h v a) := by
  cases a with
  | setVisibility val =>
    intro p hp
    have := hv p hp
    simp only [outlineStep]
    rw [(setVisibility_frame val v.module).2.2.1]
    exact this
  | deserialize rgb ns => simp [OutlineAction.isDeserialize] at ha
  | addToPanel =>
    intro p hp
    simp only [outlineStep, OutlineView.addToPanel, Option.some.injEq] at hp
    rw [← hp]
    rfl
  | showAxes checked =>
    intro p' hp'
    cases hpanel : v.panel with
    | none =>
      simp only [outlineStep, OutlineView.showAxesSetChecked, hpanel] at hp'
      exact absurd hp' (by simp)
    | some p =>
      have hsync := hv p hpanel
      by_cases hsame : p.showAxesChecked = checked
      · simp only [outlineStep, OutlineView.showAxesSetChecked, hpanel, hsame, if_true] at hp' ⊢
        simp only [Option.some.injEq] at hp'
        rw [← hp']
        exact hsync
      · obtain ⟨s1, s2⟩ := showAxesSetChecked_some checked v p hpanel hsame
        simp only [outlineStep] at hp' ⊢
        rw [s1] at hp'
        simp only [Option.some.injEq] at hp'
        rw [s2, ← hp', ← hsync]
        cases checked <;> cases p.showGridChecked <;> simp
  | showGrid checked =>
    intro p' hp'
    cases hpanel : v.panel with
    | none =>
      simp only [outlineStep, OutlineView.showGridSetChecked, hpanel] at hp'
      exact absurd hp' (by simp)
    | some p =>
      have hsync := hv p hpanel
      obtain ⟨s1, s2, _⟩ := showGridSetChecked_some checked v p hpanel
      simp only [outlineStep] at hp' ⊢
      rw [s1] at hp'
      simp only [Option.some.injEq] at hp'
      rw [s2, ← hp', ← hsync]
      by_cases hsame : p.showGridChecked = checked
      · simp [hsame]
      · simp [hsame]
  | chooseColor c =>
    intro p hp
    cases hpanel : v.panel with
    | none =>
      simp only [outlineStep, OutlineView.chosenColorChanged, hpanel] at hp
      exact absurd hp (by simp)
    | some q =>
      simp only [outlineStep, OutlineView.chosenColorChanged, hpanel] at hp ⊢
      simp only [Option.some.injEq] at hp
      rw [← hp]
      exact hv q hpanel

theorem foldl_gridBoxInSync (h : OutlineHost D) (acts : List (OutlineAction D))
    (v : OutlineView D) (hacts : ∀ a ∈ acts, a.isDeserialize = false) (hv : GridBoxInSync v) :
    GridBoxInSync (acts.foldl (outlineStep h) v) := by
  induction acts generalizing v with
  | nil => exact hv
  | cons a rest ih =>
    exact ih _ (fun b hb => hacts b (List.mem_cons_of_mem _ hb))
      (outlineStep_gridBoxInSync h v a (hacts a (List.mem_cons_self _ _)) hv)

end PanelLemmas

/-- C14, as stated, fails: `deserialize` called once the panel exists turns the generate-grid
flag on without checking `Show Grid`; when `Show Axes` is then checked and unchecked again,
`Show Grid` is unchecked and disabled, but the generate-grid flag is still true. -/
theorem C14_counterexample :
    (panelRun sampleHost (outlineRun sampleHost [])
        [OutlineAction.deserialize ⟨0, 0, 0⟩ gridOnXml, OutlineAction.showAxes true]).panel.map
        (fun p => p.showAxesChecked) = some true ∧
    (panelRun sampleHost (outlineRun sampleHost [])
        [OutlineAction.deserialize ⟨0, 0, 0⟩ gridOnXml, OutlineAction.showAxes true,
         OutlineAction.showAxes false]).panel.map
        (fun p => (p.showAxesChecked, p.showGridChecked, p.showGridEnabled))
      = some (false, false, false) ∧
    ¬ ((panelRun sampleHost (outlineRun sampleHost [])
          [OutlineAction.deserialize ⟨0, 0, 0⟩ gridOnXml, OutlineAction.showAxes true,
           OutlineAction.showAxes false]).module.gridAxesGenerateGrid = false) := by
  refine ⟨by decide, by decide, by decide⟩

/-- C14 (amended): right after `addToPanel` and in every later state, so after every state
change of `Show Axes`, the `Show Grid` box is enabled if and only if `Show Axes` is checked;
when `Show Axes` goes from checked to unchecked, `Show Grid` is unchecked and disabled, and the
generate-grid flag is false provided the `Show Grid` box showed the flag before; the box shows
the flag in every state reached from `addToPanel` without a call of `deserialize`. -/
theorem C14_show_grid_follows_show_axes {D : Type} (h : OutlineHost D) (v0 : OutlineView D)
    (acts : List (OutlineAction D)) :
    GridBoxFollowsAxes (panelRun h v0 acts) ∧
    (∀ p, (panelRun h v0 acts).panel = some p → p.showAxesChecked = true →
      ((panelRun h v0 acts).showAxesSetChecked false).panel
        = some { showAxesChecked := false, showGridChecked := false, showGridEnabled := false } ∧
      (p.showGridChecked = (panelRun h v0 acts).module.gridAxesGenerateGrid →
        ((panelRun h v0 acts).showAxesSetChecked false).module.gridAxesGenerateGrid = false)) ∧
    ((∀ a ∈ acts, a.isDeserialize = false) → GridBoxInSync (panelRun h v0 acts)) := by
  refine ⟨?_, ?_, ?_⟩
  · exact foldl_gridBoxFollowsAxes h acts _ ⟨_, rfl, rfl⟩
  · intro p hp hchecked
    obtain ⟨s1, s2⟩ := showAxesSetChecked_some false (panelRun h v0 acts) p hp
      (by rw [hchecked]; decide)
    refine ⟨?_, ?_⟩
    · rw [s1]
      rfl
    · intro hsync
      rw [s2, ← hsync]
      cases p.showGridChecked <;> simp
  · intro hacts
    apply foldl_gridBoxInSync h acts _ hacts
    intro p hp
    simp only [OutlineView.addToPanel, Option.some.injEq] at hp
    rw [← hp]
    rfl

/-- C14 (amended), on a panel whose two boxes the user checked: both conditions hold there, and
unchecking `Show Axes` unchecks and disables `Show Grid` and turns the grid off. -/
theorem C14_show_grid_follows_show_axes_witness :
    (panelRun sampleHost (outlineRun sampleHost [])
        [OutlineAction.showAxes true, OutlineAction.showGrid true]).panel.map
        (fun p => (p.showAxesChecked, p.showGridChecked, p.showGridEnabled))
      = some (true, true, true) ∧
    GridBoxFollowsAxes (panelRun sampleHost (outlineRun sampleHost [])
      [OutlineAction.showAxes true, OutlineAction.showGrid true]) ∧
    GridBoxInSync (panelRun sampleHost (outlineRun sampleHost [])
      [OutlineAction.showAxes true, OutlineAction.showGrid true]) ∧
    ((panelRun sampleHost (outlineRun sampleHost [])
        [OutlineAction.showAxes true, OutlineAction.showGrid true]).showAxesSetChecked
        false).module.gridAxesGenerateGrid = false :=
  ⟨by decide,
   (C14_show_grid_follows_show_axes sampleHost (outlineRun sampleHost [])
      [OutlineAction.showAxes true, OutlineAction.showGrid true]).1,
   (C14_show_grid_follows_show_axes sampleHost (outlineRun sampleHost [])
      [OutlineAction.showAxes true, OutlineAction.showGrid true]).2.2
      (by decide),
   ((C14_show_grid_follows_show_axes sampleHost (outlineRun sampleHost [])
      [OutlineAction.showAxes true, OutlineAction.showGrid true]).2.1
      { showGridChecked := true, showGridEnabled := true, showAxesChecked := true }
      rfl rfl).2 rfl⟩

end tomviz
